import Mathlib

/-!
Verification development for the dual marching cubes extraction engine
(`dualmc.cpp` / `dualmc.h`).  The engine extracts a quad mesh separating
volume samples below an iso value from samples at or above it.  The code is
embedded shallowly: machine integers become `Nat`/`Int`, the sample array
becomes a `List Nat`, the 32-bit float geometry becomes exact `Rat`
arithmetic, and the `unordered_map` vertex cache becomes an association
list.  The two static lookup tables are transcribed from the table source
kept in `dualmc.h`.
-/

namespace DualMC

/-- Edge bit codes, one bit per cell edge 0..11 (the `DMC_EDGE_CODE` values). -/
def EDGE0 : Nat := 1
def EDGE1 : Nat := 2
def EDGE2 : Nat := 4
def EDGE3 : Nat := 8
def EDGE4 : Nat := 16
def EDGE5 : Nat := 32
def EDGE6 : Nat := 64
def EDGE7 : Nat := 128
def EDGE8 : Nat := 256
def EDGE9 : Nat := 512
def EDGE10 : Nat := 1024
def EDGE11 : Nat := 2048

/-- Dual Marching Cubes table `dualPointsList`: for each of the 256 cube
configurations, up to four dual point codes (12-bit edge masks), unused
slots are 0.  Transcribed row by row from the table in `dualmc.h`. -/
def dualPointsList : List (List Nat) := [
  [0, 0, 0, 0],
  [EDGE0 ||| EDGE3 ||| EDGE8, 0, 0, 0],
  [EDGE0 ||| EDGE1 ||| EDGE9, 0, 0, 0],
  [EDGE1 ||| EDGE3 ||| EDGE8 ||| EDGE9, 0, 0, 0],
  [EDGE4 ||| EDGE7 ||| EDGE8, 0, 0, 0],
  [EDGE0 ||| EDGE3 ||| EDGE4 ||| EDGE7, 0, 0, 0],
  [EDGE0 ||| EDGE1 ||| EDGE9, EDGE4 ||| EDGE7 ||| EDGE8, 0, 0],
  [EDGE1 ||| EDGE3 ||| EDGE4 ||| EDGE7 ||| EDGE9, 0, 0, 0],
  [EDGE4 ||| EDGE5 ||| EDGE9, 0, 0, 0],
  [EDGE0 ||| EDGE3 ||| EDGE8, EDGE4 ||| EDGE5 ||| EDGE9, 0, 0],
  [EDGE0 ||| EDGE1 ||| EDGE4 ||| EDGE5, 0, 0, 0],
  [EDGE1 ||| EDGE3 ||| EDGE4 ||| EDGE5 ||| EDGE8, 0, 0, 0],
  [EDGE5 ||| EDGE7 ||| EDGE8 ||| EDGE9, 0, 0, 0],
  [EDGE0 ||| EDGE3 ||| EDGE5 ||| EDGE7 ||| EDGE9, 0, 0, 0],
  [EDGE0 ||| EDGE1 ||| EDGE5 ||| EDGE7 ||| EDGE8, 0, 0, 0],
  [EDGE1 ||| EDGE3 ||| EDGE5 ||| EDGE7, 0, 0, 0],
  [EDGE2 ||| EDGE3 ||| EDGE11, 0, 0, 0],
  [EDGE0 ||| EDGE2 ||| EDGE8 ||| EDGE11, 0, 0, 0],
  [EDGE0 ||| EDGE1 ||| EDGE9, EDGE2 ||| EDGE3 ||| EDGE11, 0, 0],
  [EDGE1 ||| EDGE2 ||| EDGE8 ||| EDGE9 ||| EDGE11, 0, 0, 0],
  [EDGE4 ||| EDGE7 ||| EDGE8, EDGE2 ||| EDGE3 ||| EDGE11, 0, 0],
  [EDGE0 ||| EDGE2 ||| EDGE4 ||| EDGE7 ||| EDGE11, 0, 0, 0],
  [EDGE0 ||| EDGE1 ||| EDGE9, EDGE4 ||| EDGE7 ||| EDGE8, EDGE2 ||| EDGE3 ||| EDGE11, 0],
  [EDGE1 ||| EDGE2 ||| EDGE4 ||| EDGE7 ||| EDGE9 ||| EDGE11, 0, 0, 0],
  [EDGE4 ||| EDGE5 ||| EDGE9, EDGE2 ||| EDGE3 ||| EDGE11, 0, 0],
  [EDGE0 ||| EDGE2 ||| EDGE8 ||| EDGE11, EDGE4 ||| EDGE5 ||| EDGE9, 0, 0],
  [EDGE0 ||| EDGE1 ||| EDGE4 ||| EDGE5, EDGE2 ||| EDGE3 ||| EDGE11, 0, 0],
  [EDGE1 ||| EDGE2 ||| EDGE4 ||| EDGE5 ||| EDGE8 ||| EDGE11, 0, 0, 0],
  [EDGE5 ||| EDGE7 ||| EDGE8 ||| EDGE9, EDGE2 ||| EDGE3 ||| EDGE11, 0, 0],
  [EDGE0 ||| EDGE2 ||| EDGE5 ||| EDGE7 ||| EDGE9 ||| EDGE11, 0, 0, 0],
  [EDGE0 ||| EDGE1 ||| EDGE5 ||| EDGE7 ||| EDGE8, EDGE2 ||| EDGE3 ||| EDGE11, 0, 0],
  [EDGE1 ||| EDGE2 ||| EDGE5 ||| EDGE7 ||| EDGE11, 0, 0, 0],
  [EDGE1 ||| EDGE2 ||| EDGE10, 0, 0, 0],
  [EDGE0 ||| EDGE3 ||| EDGE8, EDGE1 ||| EDGE2 ||| EDGE10, 0, 0],
  [EDGE0 ||| EDGE2 ||| EDGE9 ||| EDGE10, 0, 0, 0],
  [EDGE2 ||| EDGE3 ||| EDGE8 ||| EDGE9 ||| EDGE10, 0, 0, 0],
  [EDGE4 ||| EDGE7 ||| EDGE8, EDGE1 ||| EDGE2 ||| EDGE10, 0, 0],
  [EDGE0 ||| EDGE3 ||| EDGE4 ||| EDGE7, EDGE1 ||| EDGE2 ||| EDGE10, 0, 0],
  [EDGE0 ||| EDGE2 ||| EDGE9 ||| EDGE10, EDGE4 ||| EDGE7 ||| EDGE8, 0, 0],
  [EDGE2 ||| EDGE3 ||| EDGE4 ||| EDGE7 ||| EDGE9 ||| EDGE10, 0, 0, 0],
  [EDGE4 ||| EDGE5 ||| EDGE9, EDGE1 ||| EDGE2 ||| EDGE10, 0, 0],
  [EDGE0 ||| EDGE3 ||| EDGE8, EDGE4 ||| EDGE5 ||| EDGE9, EDGE1 ||| EDGE2 ||| EDGE10, 0],
  [EDGE0 ||| EDGE2 ||| EDGE4 ||| EDGE5 ||| EDGE10, 0, 0, 0],
  [EDGE2 ||| EDGE3 ||| EDGE4 ||| EDGE5 ||| EDGE8 ||| EDGE10, 0, 0, 0],
  [EDGE5 ||| EDGE7 ||| EDGE8 ||| EDGE9, EDGE1 ||| EDGE2 ||| EDGE10, 0, 0],
  [EDGE0 ||| EDGE3 ||| EDGE5 ||| EDGE7 ||| EDGE9, EDGE1 ||| EDGE2 ||| EDGE10, 0, 0],
  [EDGE0 ||| EDGE2 ||| EDGE5 ||| EDGE7 ||| EDGE8 ||| EDGE10, 0, 0, 0],
  [EDGE2 ||| EDGE3 ||| EDGE5 ||| EDGE7 ||| EDGE10, 0, 0, 0],
  [EDGE1 ||| EDGE3 ||| EDGE10 ||| EDGE11, 0, 0, 0],
  [EDGE0 ||| EDGE1 ||| EDGE8 ||| EDGE10 ||| EDGE11, 0, 0, 0],
  [EDGE0 ||| EDGE3 ||| EDGE9 ||| EDGE10 ||| EDGE11, 0, 0, 0],
  [EDGE8 ||| EDGE9 ||| EDGE10 ||| EDGE11, 0, 0, 0],
  [EDGE4 ||| EDGE7 ||| EDGE8, EDGE1 ||| EDGE3 ||| EDGE10 ||| EDGE11, 0, 0],
  [EDGE0 ||| EDGE1 ||| EDGE4 ||| EDGE7 ||| EDGE10 ||| EDGE11, 0, 0, 0],
  [EDGE0 ||| EDGE3 ||| EDGE9 ||| EDGE10 ||| EDGE11, EDGE4 ||| EDGE7 ||| EDGE8, 0, 0],
  [EDGE4 ||| EDGE7 ||| EDGE9 ||| EDGE10 ||| EDGE11, 0, 0, 0],
  [EDGE4 ||| EDGE5 ||| EDGE9, EDGE1 ||| EDGE3 ||| EDGE10 ||| EDGE11, 0, 0],
  [EDGE0 ||| EDGE1 ||| EDGE8 ||| EDGE10 ||| EDGE11, EDGE4 ||| EDGE5 ||| EDGE9, 0, 0],
  [EDGE0 ||| EDGE3 ||| EDGE4 ||| EDGE5 ||| EDGE10 ||| EDGE11, 0, 0, 0],
  [EDGE4 ||| EDGE5 ||| EDGE8 ||| EDGE10 ||| EDGE11, 0, 0, 0],
  [EDGE5 ||| EDGE7 ||| EDGE8 ||| EDGE9, EDGE1 ||| EDGE3 ||| EDGE10 ||| EDGE11, 0, 0],
  [EDGE0 ||| EDGE1 ||| EDGE5 ||| EDGE7 ||| EDGE9 ||| EDGE10 ||| EDGE11, 0, 0, 0],
  [EDGE0 ||| EDGE3 ||| EDGE5 ||| EDGE7 ||| EDGE8 ||| EDGE10 ||| EDGE11, 0, 0, 0],
  [EDGE5 ||| EDGE7 ||| EDGE10 ||| EDGE11, 0, 0, 0],
  [EDGE6 ||| EDGE7 ||| EDGE11, 0, 0, 0],
  [EDGE0 ||| EDGE3 ||| EDGE8, EDGE6 ||| EDGE7 ||| EDGE11, 0, 0],
  [EDGE0 ||| EDGE1 ||| EDGE9, EDGE6 ||| EDGE7 ||| EDGE11, 0, 0],
  [EDGE1 ||| EDGE3 ||| EDGE8 ||| EDGE9, EDGE6 ||| EDGE7 ||| EDGE11, 0, 0],
  [EDGE4 ||| EDGE6 ||| EDGE8 ||| EDGE11, 0, 0, 0],
  [EDGE0 ||| EDGE3 ||| EDGE4 ||| EDGE6 ||| EDGE11, 0, 0, 0],
  [EDGE0 ||| EDGE1 ||| EDGE9, EDGE4 ||| EDGE6 ||| EDGE8 ||| EDGE11, 0, 0],
  [EDGE1 ||| EDGE3 ||| EDGE4 ||| EDGE6 ||| EDGE9 ||| EDGE11, 0, 0, 0],
  [EDGE4 ||| EDGE5 ||| EDGE9, EDGE6 ||| EDGE7 ||| EDGE11, 0, 0],
  [EDGE0 ||| EDGE3 ||| EDGE8, EDGE4 ||| EDGE5 ||| EDGE9, EDGE6 ||| EDGE7 ||| EDGE11, 0],
  [EDGE0 ||| EDGE1 ||| EDGE4 ||| EDGE5, EDGE6 ||| EDGE7 ||| EDGE11, 0, 0],
  [EDGE1 ||| EDGE3 ||| EDGE4 ||| EDGE5 ||| EDGE8, EDGE6 ||| EDGE7 ||| EDGE11, 0, 0],
  [EDGE5 ||| EDGE6 ||| EDGE8 ||| EDGE9 ||| EDGE11, 0, 0, 0],
  [EDGE0 ||| EDGE3 ||| EDGE5 ||| EDGE6 ||| EDGE9 ||| EDGE11, 0, 0, 0],
  [EDGE0 ||| EDGE1 ||| EDGE5 ||| EDGE6 ||| EDGE8 ||| EDGE11, 0, 0, 0],
  [EDGE1 ||| EDGE3 ||| EDGE5 ||| EDGE6 ||| EDGE11, 0, 0, 0],
  [EDGE2 ||| EDGE3 ||| EDGE6 ||| EDGE7, 0, 0, 0],
  [EDGE0 ||| EDGE2 ||| EDGE6 ||| EDGE7 ||| EDGE8, 0, 0, 0],
  [EDGE0 ||| EDGE1 ||| EDGE9, EDGE2 ||| EDGE3 ||| EDGE6 ||| EDGE7, 0, 0],
  [EDGE1 ||| EDGE2 ||| EDGE6 ||| EDGE7 ||| EDGE8 ||| EDGE9, 0, 0, 0],
  [EDGE2 ||| EDGE3 ||| EDGE4 ||| EDGE6 ||| EDGE8, 0, 0, 0],
  [EDGE0 ||| EDGE2 ||| EDGE4 ||| EDGE6, 0, 0, 0],
  [EDGE0 ||| EDGE1 ||| EDGE9, EDGE2 ||| EDGE3 ||| EDGE4 ||| EDGE6 ||| EDGE8, 0, 0],
  [EDGE1 ||| EDGE2 ||| EDGE4 ||| EDGE6 ||| EDGE9, 0, 0, 0],
  [EDGE4 ||| EDGE5 ||| EDGE9, EDGE2 ||| EDGE3 ||| EDGE6 ||| EDGE7, 0, 0],
  [EDGE0 ||| EDGE2 ||| EDGE6 ||| EDGE7 ||| EDGE8, EDGE4 ||| EDGE5 ||| EDGE9, 0, 0],
  [EDGE0 ||| EDGE1 ||| EDGE4 ||| EDGE5, EDGE2 ||| EDGE3 ||| EDGE6 ||| EDGE7, 0, 0],
  [EDGE1 ||| EDGE2 ||| EDGE4 ||| EDGE5 ||| EDGE6 ||| EDGE7 ||| EDGE8, 0, 0, 0],
  [EDGE2 ||| EDGE3 ||| EDGE5 ||| EDGE6 ||| EDGE8 ||| EDGE9, 0, 0, 0],
  [EDGE0 ||| EDGE2 ||| EDGE5 ||| EDGE6 ||| EDGE9, 0, 0, 0],
  [EDGE0 ||| EDGE1 ||| EDGE2 ||| EDGE3 ||| EDGE5 ||| EDGE6 ||| EDGE8, 0, 0, 0],
  [EDGE1 ||| EDGE2 ||| EDGE5 ||| EDGE6, 0, 0, 0],
  [EDGE1 ||| EDGE2 ||| EDGE10, EDGE6 ||| EDGE7 ||| EDGE11, 0, 0],
  [EDGE0 ||| EDGE3 ||| EDGE8, EDGE1 ||| EDGE2 ||| EDGE10, EDGE6 ||| EDGE7 ||| EDGE11, 0],
  [EDGE0 ||| EDGE2 ||| EDGE9 ||| EDGE10, EDGE6 ||| EDGE7 ||| EDGE11, 0, 0],
  [EDGE2 ||| EDGE3 ||| EDGE8 ||| EDGE9 ||| EDGE10, EDGE6 ||| EDGE7 ||| EDGE11, 0, 0],
  [EDGE4 ||| EDGE6 ||| EDGE8 ||| EDGE11, EDGE1 ||| EDGE2 ||| EDGE10, 0, 0],
  [EDGE0 ||| EDGE3 ||| EDGE4 ||| EDGE6 ||| EDGE11, EDGE1 ||| EDGE2 ||| EDGE10, 0, 0],
  [EDGE0 ||| EDGE2 ||| EDGE9 ||| EDGE10, EDGE4 ||| EDGE6 ||| EDGE8 ||| EDGE11, 0, 0],
  [EDGE2 ||| EDGE3 ||| EDGE4 ||| EDGE6 ||| EDGE9 ||| EDGE10 ||| EDGE11, 0, 0, 0],
  [EDGE4 ||| EDGE5 ||| EDGE9, EDGE1 ||| EDGE2 ||| EDGE10, EDGE6 ||| EDGE7 ||| EDGE11, 0],
  [EDGE0 ||| EDGE3 ||| EDGE8, EDGE4 ||| EDGE5 ||| EDGE9, EDGE1 ||| EDGE2 ||| EDGE10, EDGE6 ||| EDGE7 ||| EDGE11],
  [EDGE0 ||| EDGE2 ||| EDGE4 ||| EDGE5 ||| EDGE10, EDGE6 ||| EDGE7 ||| EDGE11, 0, 0],
  [EDGE2 ||| EDGE3 ||| EDGE4 ||| EDGE5 ||| EDGE8 ||| EDGE10, EDGE6 ||| EDGE7 ||| EDGE11, 0, 0],
  [EDGE5 ||| EDGE6 ||| EDGE8 ||| EDGE9 ||| EDGE11, EDGE1 ||| EDGE2 ||| EDGE10, 0, 0],
  [EDGE0 ||| EDGE3 ||| EDGE5 ||| EDGE6 ||| EDGE9 ||| EDGE11, EDGE1 ||| EDGE2 ||| EDGE10, 0, 0],
  [EDGE0 ||| EDGE2 ||| EDGE5 ||| EDGE6 ||| EDGE8 ||| EDGE10 ||| EDGE11, 0, 0, 0],
  [EDGE2 ||| EDGE3 ||| EDGE5 ||| EDGE6 ||| EDGE10 ||| EDGE11, 0, 0, 0],
  [EDGE1 ||| EDGE3 ||| EDGE6 ||| EDGE7 ||| EDGE10, 0, 0, 0],
  [EDGE0 ||| EDGE1 ||| EDGE6 ||| EDGE7 ||| EDGE8 ||| EDGE10, 0, 0, 0],
  [EDGE0 ||| EDGE3 ||| EDGE6 ||| EDGE7 ||| EDGE9 ||| EDGE10, 0, 0, 0],
  [EDGE6 ||| EDGE7 ||| EDGE8 ||| EDGE9 ||| EDGE10, 0, 0, 0],
  [EDGE1 ||| EDGE3 ||| EDGE4 ||| EDGE6 ||| EDGE8 ||| EDGE10, 0, 0, 0],
  [EDGE0 ||| EDGE1 ||| EDGE4 ||| EDGE6 ||| EDGE10, 0, 0, 0],
  [EDGE0 ||| EDGE3 ||| EDGE4 ||| EDGE6 ||| EDGE8 ||| EDGE9 ||| EDGE10, 0, 0, 0],
  [EDGE4 ||| EDGE6 ||| EDGE9 ||| EDGE10, 0, 0, 0],
  [EDGE4 ||| EDGE5 ||| EDGE9, EDGE1 ||| EDGE3 ||| EDGE6 ||| EDGE7 ||| EDGE10, 0, 0],
  [EDGE0 ||| EDGE1 ||| EDGE6 ||| EDGE7 ||| EDGE8 ||| EDGE10, EDGE4 ||| EDGE5 ||| EDGE9, 0, 0],
  [EDGE0 ||| EDGE3 ||| EDGE4 ||| EDGE5 ||| EDGE6 ||| EDGE7 ||| EDGE10, 0, 0, 0],
  [EDGE4 ||| EDGE5 ||| EDGE6 ||| EDGE7 ||| EDGE8 ||| EDGE10, 0, 0, 0],
  [EDGE1 ||| EDGE3 ||| EDGE5 ||| EDGE6 ||| EDGE8 ||| EDGE9 ||| EDGE10, 0, 0, 0],
  [EDGE0 ||| EDGE1 ||| EDGE5 ||| EDGE6 ||| EDGE9 ||| EDGE10, 0, 0, 0],
  [EDGE0 ||| EDGE3 ||| EDGE8, EDGE5 ||| EDGE6 ||| EDGE10, 0, 0],
  [EDGE5 ||| EDGE6 ||| EDGE10, 0, 0, 0],
  [EDGE5 ||| EDGE6 ||| EDGE10, 0, 0, 0],
  [EDGE0 ||| EDGE3 ||| EDGE8, EDGE5 ||| EDGE6 ||| EDGE10, 0, 0],
  [EDGE0 ||| EDGE1 ||| EDGE9, EDGE5 ||| EDGE6 ||| EDGE10, 0, 0],
  [EDGE1 ||| EDGE3 ||| EDGE8 ||| EDGE9, EDGE5 ||| EDGE6 ||| EDGE10, 0, 0],
  [EDGE4 ||| EDGE7 ||| EDGE8, EDGE5 ||| EDGE6 ||| EDGE10, 0, 0],
  [EDGE0 ||| EDGE3 ||| EDGE4 ||| EDGE7, EDGE5 ||| EDGE6 ||| EDGE10, 0, 0],
  [EDGE0 ||| EDGE1 ||| EDGE9, EDGE4 ||| EDGE7 ||| EDGE8, EDGE5 ||| EDGE6 ||| EDGE10, 0],
  [EDGE1 ||| EDGE3 ||| EDGE4 ||| EDGE7 ||| EDGE9, EDGE5 ||| EDGE6 ||| EDGE10, 0, 0],
  [EDGE4 ||| EDGE6 ||| EDGE9 ||| EDGE10, 0, 0, 0],
  [EDGE0 ||| EDGE3 ||| EDGE8, EDGE4 ||| EDGE6 ||| EDGE9 ||| EDGE10, 0, 0],
  [EDGE0 ||| EDGE1 ||| EDGE4 ||| EDGE6 ||| EDGE10, 0, 0, 0],
  [EDGE1 ||| EDGE3 ||| EDGE4 ||| EDGE6 ||| EDGE8 ||| EDGE10, 0, 0, 0],
  [EDGE6 ||| EDGE7 ||| EDGE8 ||| EDGE9 ||| EDGE10, 0, 0, 0],
  [EDGE0 ||| EDGE3 ||| EDGE6 ||| EDGE7 ||| EDGE9 ||| EDGE10, 0, 0, 0],
  [EDGE0 ||| EDGE1 ||| EDGE6 ||| EDGE7 ||| EDGE8 ||| EDGE10, 0, 0, 0],
  [EDGE1 ||| EDGE3 ||| EDGE6 ||| EDGE7 ||| EDGE10, 0, 0, 0],
  [EDGE2 ||| EDGE3 ||| EDGE11, EDGE5 ||| EDGE6 ||| EDGE10, 0, 0],
  [EDGE0 ||| EDGE2 ||| EDGE8 ||| EDGE11, EDGE5 ||| EDGE6 ||| EDGE10, 0, 0],
  [EDGE0 ||| EDGE1 ||| EDGE9, EDGE2 ||| EDGE3 ||| EDGE11, EDGE5 ||| EDGE6 ||| EDGE10, 0],
  [EDGE1 ||| EDGE2 ||| EDGE8 ||| EDGE9 ||| EDGE11, EDGE5 ||| EDGE6 ||| EDGE10, 0, 0],
  [EDGE4 ||| EDGE7 ||| EDGE8, EDGE2 ||| EDGE3 ||| EDGE11, EDGE5 ||| EDGE6 ||| EDGE10, 0],
  [EDGE0 ||| EDGE2 ||| EDGE4 ||| EDGE7 ||| EDGE11, EDGE5 ||| EDGE6 ||| EDGE10, 0, 0],
  [EDGE0 ||| EDGE1 ||| EDGE9, EDGE4 ||| EDGE7 ||| EDGE8, EDGE2 ||| EDGE3 ||| EDGE11, EDGE5 ||| EDGE6 ||| EDGE10],
  [EDGE1 ||| EDGE2 ||| EDGE4 ||| EDGE7 ||| EDGE9 ||| EDGE11, EDGE5 ||| EDGE6 ||| EDGE10, 0, 0],
  [EDGE4 ||| EDGE6 ||| EDGE9 ||| EDGE10, EDGE2 ||| EDGE3 ||| EDGE11, 0, 0],
  [EDGE0 ||| EDGE2 ||| EDGE8 ||| EDGE11, EDGE4 ||| EDGE6 ||| EDGE9 ||| EDGE10, 0, 0],
  [EDGE0 ||| EDGE1 ||| EDGE4 ||| EDGE6 ||| EDGE10, EDGE2 ||| EDGE3 ||| EDGE11, 0, 0],
  [EDGE1 ||| EDGE2 ||| EDGE4 ||| EDGE6 ||| EDGE8 ||| EDGE10 ||| EDGE11, 0, 0, 0],
  [EDGE6 ||| EDGE7 ||| EDGE8 ||| EDGE9 ||| EDGE10, EDGE2 ||| EDGE3 ||| EDGE11, 0, 0],
  [EDGE0 ||| EDGE2 ||| EDGE6 ||| EDGE7 ||| EDGE9 ||| EDGE10 ||| EDGE11, 0, 0, 0],
  [EDGE0 ||| EDGE1 ||| EDGE6 ||| EDGE7 ||| EDGE8 ||| EDGE10, EDGE2 ||| EDGE3 ||| EDGE11, 0, 0],
  [EDGE1 ||| EDGE2 ||| EDGE6 ||| EDGE7 ||| EDGE10 ||| EDGE11, 0, 0, 0],
  [EDGE1 ||| EDGE2 ||| EDGE5 ||| EDGE6, 0, 0, 0],
  [EDGE0 ||| EDGE3 ||| EDGE8, EDGE1 ||| EDGE2 ||| EDGE5 ||| EDGE6, 0, 0],
  [EDGE0 ||| EDGE2 ||| EDGE5 ||| EDGE6 ||| EDGE9, 0, 0, 0],
  [EDGE2 ||| EDGE3 ||| EDGE5 ||| EDGE6 ||| EDGE8 ||| EDGE9, 0, 0, 0],
  [EDGE4 ||| EDGE7 ||| EDGE8, EDGE1 ||| EDGE2 ||| EDGE5 ||| EDGE6, 0, 0],
  [EDGE0 ||| EDGE3 ||| EDGE4 ||| EDGE7, EDGE1 ||| EDGE2 ||| EDGE5 ||| EDGE6, 0, 0],
  [EDGE0 ||| EDGE2 ||| EDGE5 ||| EDGE6 ||| EDGE9, EDGE4 ||| EDGE7 ||| EDGE8, 0, 0],
  [EDGE2 ||| EDGE3 ||| EDGE4 ||| EDGE5 ||| EDGE6 ||| EDGE7 ||| EDGE9, 0, 0, 0],
  [EDGE1 ||| EDGE2 ||| EDGE4 ||| EDGE6 ||| EDGE9, 0, 0, 0],
  [EDGE0 ||| EDGE3 ||| EDGE8, EDGE1 ||| EDGE2 ||| EDGE4 ||| EDGE6 ||| EDGE9, 0, 0],
  [EDGE0 ||| EDGE2 ||| EDGE4 ||| EDGE6, 0, 0, 0],
  [EDGE2 ||| EDGE3 ||| EDGE4 ||| EDGE6 ||| EDGE8, 0, 0, 0],
  [EDGE1 ||| EDGE2 ||| EDGE6 ||| EDGE7 ||| EDGE8 ||| EDGE9, 0, 0, 0],
  [EDGE0 ||| EDGE1 ||| EDGE2 ||| EDGE3 ||| EDGE6 ||| EDGE7 ||| EDGE9, 0, 0, 0],
  [EDGE0 ||| EDGE2 ||| EDGE6 ||| EDGE7 ||| EDGE8, 0, 0, 0],
  [EDGE2 ||| EDGE3 ||| EDGE6 ||| EDGE7, 0, 0, 0],
  [EDGE1 ||| EDGE3 ||| EDGE5 ||| EDGE6 ||| EDGE11, 0, 0, 0],
  [EDGE0 ||| EDGE1 ||| EDGE5 ||| EDGE6 ||| EDGE8 ||| EDGE11, 0, 0, 0],
  [EDGE0 ||| EDGE3 ||| EDGE5 ||| EDGE6 ||| EDGE9 ||| EDGE11, 0, 0, 0],
  [EDGE5 ||| EDGE6 ||| EDGE8 ||| EDGE9 ||| EDGE11, 0, 0, 0],
  [EDGE4 ||| EDGE7 ||| EDGE8, EDGE1 ||| EDGE3 ||| EDGE5 ||| EDGE6 ||| EDGE11, 0, 0],
  [EDGE0 ||| EDGE1 ||| EDGE4 ||| EDGE5 ||| EDGE6 ||| EDGE7 ||| EDGE11, 0, 0, 0],
  [EDGE0 ||| EDGE3 ||| EDGE5 ||| EDGE6 ||| EDGE9 ||| EDGE11, EDGE4 ||| EDGE7 ||| EDGE8, 0, 0],
  [EDGE4 ||| EDGE5 ||| EDGE6 ||| EDGE7 ||| EDGE9 ||| EDGE11, 0, 0, 0],
  [EDGE1 ||| EDGE3 ||| EDGE4 ||| EDGE6 ||| EDGE9 ||| EDGE11, 0, 0, 0],
  [EDGE0 ||| EDGE1 ||| EDGE4 ||| EDGE6 ||| EDGE8 ||| EDGE9 ||| EDGE11, 0, 0, 0],
  [EDGE0 ||| EDGE3 ||| EDGE4 ||| EDGE6 ||| EDGE11, 0, 0, 0],
  [EDGE4 ||| EDGE6 ||| EDGE8 ||| EDGE11, 0, 0, 0],
  [EDGE1 ||| EDGE3 ||| EDGE6 ||| EDGE7 ||| EDGE8 ||| EDGE9 ||| EDGE11, 0, 0, 0],
  [EDGE0 ||| EDGE1 ||| EDGE9, EDGE6 ||| EDGE7 ||| EDGE11, 0, 0],
  [EDGE0 ||| EDGE3 ||| EDGE6 ||| EDGE7 ||| EDGE8 ||| EDGE11, 0, 0, 0],
  [EDGE6 ||| EDGE7 ||| EDGE11, 0, 0, 0],
  [EDGE5 ||| EDGE7 ||| EDGE10 ||| EDGE11, 0, 0, 0],
  [EDGE0 ||| EDGE3 ||| EDGE8, EDGE5 ||| EDGE7 ||| EDGE10 ||| EDGE11, 0, 0],
  [EDGE0 ||| EDGE1 ||| EDGE9, EDGE5 ||| EDGE7 ||| EDGE10 ||| EDGE11, 0, 0],
  [EDGE1 ||| EDGE3 ||| EDGE8 ||| EDGE9, EDGE5 ||| EDGE7 ||| EDGE10 ||| EDGE11, 0, 0],
  [EDGE4 ||| EDGE5 ||| EDGE8 ||| EDGE10 ||| EDGE11, 0, 0, 0],
  [EDGE0 ||| EDGE3 ||| EDGE4 ||| EDGE5 ||| EDGE10 ||| EDGE11, 0, 0, 0],
  [EDGE0 ||| EDGE1 ||| EDGE9, EDGE4 ||| EDGE5 ||| EDGE8 ||| EDGE10 ||| EDGE11, 0, 0],
  [EDGE1 ||| EDGE3 ||| EDGE4 ||| EDGE5 ||| EDGE9 ||| EDGE10 ||| EDGE11, 0, 0, 0],
  [EDGE4 ||| EDGE7 ||| EDGE9 ||| EDGE10 ||| EDGE11, 0, 0, 0],
  [EDGE0 ||| EDGE3 ||| EDGE8, EDGE4 ||| EDGE7 ||| EDGE9 ||| EDGE10 ||| EDGE11, 0, 0],
  [EDGE0 ||| EDGE1 ||| EDGE4 ||| EDGE7 ||| EDGE10 ||| EDGE11, 0, 0, 0],
  [EDGE1 ||| EDGE3 ||| EDGE4 ||| EDGE7 ||| EDGE8 ||| EDGE10 ||| EDGE11, 0, 0, 0],
  [EDGE8 ||| EDGE9 ||| EDGE10 ||| EDGE11, 0, 0, 0],
  [EDGE0 ||| EDGE3 ||| EDGE9 ||| EDGE10 ||| EDGE11, 0, 0, 0],
  [EDGE0 ||| EDGE1 ||| EDGE8 ||| EDGE10 ||| EDGE11, 0, 0, 0],
  [EDGE1 ||| EDGE3 ||| EDGE10 ||| EDGE11, 0, 0, 0],
  [EDGE2 ||| EDGE3 ||| EDGE5 ||| EDGE7 ||| EDGE10, 0, 0, 0],
  [EDGE0 ||| EDGE2 ||| EDGE5 ||| EDGE7 ||| EDGE8 ||| EDGE10, 0, 0, 0],
  [EDGE0 ||| EDGE1 ||| EDGE9, EDGE2 ||| EDGE3 ||| EDGE5 ||| EDGE7 ||| EDGE10, 0, 0],
  [EDGE1 ||| EDGE2 ||| EDGE5 ||| EDGE7 ||| EDGE8 ||| EDGE9 ||| EDGE10, 0, 0, 0],
  [EDGE2 ||| EDGE3 ||| EDGE4 ||| EDGE5 ||| EDGE8 ||| EDGE10, 0, 0, 0],
  [EDGE0 ||| EDGE2 ||| EDGE4 ||| EDGE5 ||| EDGE10, 0, 0, 0],
  [EDGE0 ||| EDGE1 ||| EDGE9, EDGE2 ||| EDGE3 ||| EDGE4 ||| EDGE5 ||| EDGE8 ||| EDGE10, 0, 0],
  [EDGE1 ||| EDGE2 ||| EDGE4 ||| EDGE5 ||| EDGE9 ||| EDGE10, 0, 0, 0],
  [EDGE2 ||| EDGE3 ||| EDGE4 ||| EDGE7 ||| EDGE9 ||| EDGE10, 0, 0, 0],
  [EDGE0 ||| EDGE2 ||| EDGE4 ||| EDGE7 ||| EDGE8 ||| EDGE9 ||| EDGE10, 0, 0, 0],
  [EDGE0 ||| EDGE1 ||| EDGE2 ||| EDGE3 ||| EDGE4 ||| EDGE7 ||| EDGE10, 0, 0, 0],
  [EDGE4 ||| EDGE7 ||| EDGE8, EDGE1 ||| EDGE2 ||| EDGE10, 0, 0],
  [EDGE2 ||| EDGE3 ||| EDGE8 ||| EDGE9 ||| EDGE10, 0, 0, 0],
  [EDGE0 ||| EDGE2 ||| EDGE9 ||| EDGE10, 0, 0, 0],
  [EDGE0 ||| EDGE1 ||| EDGE2 ||| EDGE3 ||| EDGE8 ||| EDGE10, 0, 0, 0],
  [EDGE1 ||| EDGE2 ||| EDGE10, 0, 0, 0],
  [EDGE1 ||| EDGE2 ||| EDGE5 ||| EDGE7 ||| EDGE11, 0, 0, 0],
  [EDGE0 ||| EDGE3 ||| EDGE8, EDGE1 ||| EDGE2 ||| EDGE5 ||| EDGE7 ||| EDGE11, 0, 0],
  [EDGE0 ||| EDGE2 ||| EDGE5 ||| EDGE7 ||| EDGE9 ||| EDGE11, 0, 0, 0],
  [EDGE2 ||| EDGE3 ||| EDGE5 ||| EDGE7 ||| EDGE8 ||| EDGE9 ||| EDGE11, 0, 0, 0],
  [EDGE1 ||| EDGE2 ||| EDGE4 ||| EDGE5 ||| EDGE8 ||| EDGE11, 0, 0, 0],
  [EDGE0 ||| EDGE1 ||| EDGE2 ||| EDGE3 ||| EDGE4 ||| EDGE5 ||| EDGE11, 0, 0, 0],
  [EDGE0 ||| EDGE2 ||| EDGE4 ||| EDGE5 ||| EDGE8 ||| EDGE9 ||| EDGE11, 0, 0, 0],
  [EDGE4 ||| EDGE5 ||| EDGE9, EDGE2 ||| EDGE3 ||| EDGE11, 0, 0],
  [EDGE1 ||| EDGE2 ||| EDGE4 ||| EDGE7 ||| EDGE9 ||| EDGE11, 0, 0, 0],
  [EDGE0 ||| EDGE3 ||| EDGE8, EDGE1 ||| EDGE2 ||| EDGE4 ||| EDGE7 ||| EDGE9 ||| EDGE11, 0, 0],
  [EDGE0 ||| EDGE2 ||| EDGE4 ||| EDGE7 ||| EDGE11, 0, 0, 0],
  [EDGE2 ||| EDGE3 ||| EDGE4 ||| EDGE7 ||| EDGE8 ||| EDGE11, 0, 0, 0],
  [EDGE1 ||| EDGE2 ||| EDGE8 ||| EDGE9 ||| EDGE11, 0, 0, 0],
  [EDGE0 ||| EDGE1 ||| EDGE2 ||| EDGE3 ||| EDGE9 ||| EDGE11, 0, 0, 0],
  [EDGE0 ||| EDGE2 ||| EDGE8 ||| EDGE11, 0, 0, 0],
  [EDGE2 ||| EDGE3 ||| EDGE11, 0, 0, 0],
  [EDGE1 ||| EDGE3 ||| EDGE5 ||| EDGE7, 0, 0, 0],
  [EDGE0 ||| EDGE1 ||| EDGE5 ||| EDGE7 ||| EDGE8, 0, 0, 0],
  [EDGE0 ||| EDGE3 ||| EDGE5 ||| EDGE7 ||| EDGE9, 0, 0, 0],
  [EDGE5 ||| EDGE7 ||| EDGE8 ||| EDGE9, 0, 0, 0],
  [EDGE1 ||| EDGE3 ||| EDGE4 ||| EDGE5 ||| EDGE8, 0, 0, 0],
  [EDGE0 ||| EDGE1 ||| EDGE4 ||| EDGE5, 0, 0, 0],
  [EDGE0 ||| EDGE3 ||| EDGE4 ||| EDGE5 ||| EDGE8 ||| EDGE9, 0, 0, 0],
  [EDGE4 ||| EDGE5 ||| EDGE9, 0, 0, 0],
  [EDGE1 ||| EDGE3 ||| EDGE4 ||| EDGE7 ||| EDGE9, 0, 0, 0],
  [EDGE0 ||| EDGE1 ||| EDGE4 ||| EDGE7 ||| EDGE8 ||| EDGE9, 0, 0, 0],
  [EDGE0 ||| EDGE3 ||| EDGE4 ||| EDGE7, 0, 0, 0],
  [EDGE4 ||| EDGE7 ||| EDGE8, 0, 0, 0],
  [EDGE1 ||| EDGE3 ||| EDGE8 ||| EDGE9, 0, 0, 0],
  [EDGE0 ||| EDGE1 ||| EDGE9, 0, 0, 0],
  [EDGE0 ||| EDGE3 ||| EDGE8, 0, 0, 0],
  [0, 0, 0, 0]
]

/-- Table `problematicConfigs`: the ambiguous face direction of each cube
configuration (255 when the configuration is not problematic).
Transcribed from the table in `dualmc.h`. -/
def problematicConfigs : List Nat := [
  255, 255, 255, 255, 255, 255, 255, 255, 255, 255, 255, 255, 255, 255, 255, 255,
  255, 255, 255, 255, 255, 255, 255, 255, 255, 255, 255, 255, 255, 255, 255, 255,
  255, 255, 255, 255, 255, 255, 255, 255, 255, 255, 255, 255, 255, 255, 255, 255,
  255, 255, 255, 255, 255, 255, 255, 255, 255, 255, 255, 255, 255, 1, 0, 255,
  255, 255, 255, 255, 255, 255, 255, 255, 255, 255, 255, 255, 255, 255, 255, 255,
  255, 255, 255, 255, 255, 255, 255, 255, 255, 255, 255, 3, 255, 255, 2, 255,
  255, 255, 255, 255, 255, 255, 255, 5, 255, 255, 255, 255, 255, 255, 5, 5,
  255, 255, 255, 255, 255, 255, 4, 255, 255, 255, 3, 3, 1, 1, 255, 255,
  255, 255, 255, 255, 255, 255, 255, 255, 255, 255, 255, 255, 255, 255, 255, 255,
  255, 255, 255, 255, 255, 255, 255, 255, 255, 255, 255, 5, 255, 5, 255, 5,
  255, 255, 255, 255, 255, 255, 255, 3, 255, 255, 255, 255, 255, 2, 255, 255,
  255, 255, 255, 255, 255, 3, 255, 3, 255, 4, 255, 255, 0, 255, 0, 255,
  255, 255, 255, 255, 255, 255, 255, 1, 255, 255, 255, 0, 255, 255, 255, 255,
  255, 255, 255, 1, 255, 255, 255, 1, 255, 4, 2, 255, 255, 255, 2, 255,
  255, 255, 255, 0, 255, 2, 4, 255, 255, 255, 255, 0, 255, 2, 255, 255,
  255, 255, 255, 255, 255, 255, 4, 255, 255, 4, 255, 255, 255, 255, 255, 255
]

/-- Mesh vertex, three coordinates (`Vertex` in `vertex.h`; the C++ floats
are modelled exactly over the rationals). -/
structure Vertex where
  x : Rat
  y : Rat
  z : Rat
deriving DecidableEq

/-- Quad of four vertex indices (`Quad` in `quad.h`). -/
structure Quad where
  i0 : Nat
  i1 : Nat
  i2 : Nat
  i3 : Nat
deriving DecidableEq

/-- Input volume: the flat sample array together with the three dimensions
(the members `_volumeGrid` and `_volumeDimensions` of `DualMC`). -/
structure Volume where
  data : List Nat
  dimX : Int
  dimY : Int
  dimZ : Int
deriving DecidableEq

/-- Component access into `_volumeDimensions`. -/
def dim (v : Volume) : Nat → Int
  | 0 => v.dimX
  | 1 => v.dimY
  | _ => v.dimZ

/-- Linearized cell index, `DualMC::_index`:
`x + _volumeDimensions[0] * (y + _volumeDimensions[1] * z)`. -/
def index (v : Volume) (x y z : Int) : Int :=
  x + v.dimX * (y + v.dimY * z)

/-- Read of `_volumeGrid[_index(x,y,z)]`.  In-range accesses (the only ones
the claims depend on) read the array entry; anything else defaults to 0. -/
def sample (v : Volume) (x y z : Int) : Nat :=
  v.data.getD (index v x y z).toNat 0

/-- Cell classifier `DualMC::_getCellCode`: the 8-bit corner in/out mask,
bit k set iff the sample at corner k is ≥ the iso value. -/
def getCellCode (v : Volume) (x y z : Int) (iso : Nat) : Nat :=
  (if iso ≤ sample v x y z then 1 else 0) |||
  (if iso ≤ sample v (x + 1) y z then 2 else 0) |||
  (if iso ≤ sample v x (y + 1) z then 4 else 0) |||
  (if iso ≤ sample v (x + 1) (y + 1) z then 8 else 0) |||
  (if iso ≤ sample v x y (z + 1) then 16 else 0) |||
  (if iso ≤ sample v (x + 1) y (z + 1) then 32 else 0) |||
  (if iso ≤ sample v x (y + 1) (z + 1) then 64 else 0) |||
  (if iso ≤ sample v (x + 1) (y + 1) (z + 1) then 128 else 0)

/-- Lookup `problematicConfigs[cc]` (the `uint8_t(cubeCode)` cast is the
identity on the in-range codes produced by `_getCellCode`). -/
def problematicConfig (cc : Nat) : Nat :=
  problematicConfigs.getD cc 255

/-- Cube code actually used for dual point lookup: `_getDualPointCode`
first computes `_getCellCode` and, in manifold mode, possibly replaces it
by its complement `cubeCode ^ 0xff` after checking the ambiguous-face
neighbor (lines 67–123 of `dualmc.cpp`). -/
def manifoldCellCode (v : Volume) (gm : Bool) (x y z : Int) (iso : Nat) : Nat :=
  let cubeCode := getCellCode v x y z iso
  if gm then
    let direction := problematicConfig cubeCode
    if direction ≠ 255 then
      let component := direction / 2
      let delta : Int := if direction % 2 = 1 then 1 else -1
      let nx := if component = 0 then x + delta else x
      let ny := if component = 1 then y + delta else y
      let nz := if component = 2 then z + delta else z
      let ncoord := if component = 0 then nx else if component = 1 then ny else nz
      if 0 ≤ ncoord ∧ ncoord < dim v component - 1 then
        if problematicConfig (getCellCode v nx ny nz iso) ≠ 255 then
          cubeCode ^^^ 255
        else
          cubeCode
      else
        cubeCode
    else
      cubeCode
  else
    cubeCode

/-- First slot of a table row whose edge mask meets `edge`, else 0 — the
`for (i = 0; i < 4; ++i)` loop at the end of `_getDualPointCode`. -/
def firstMatch (row : List Nat) (edge : Nat) : Nat :=
  match row with
  | [] => 0
  | s :: rest => if s &&& edge ≠ 0 then s else firstMatch rest edge

/-- Dual point resolver: scan the four slots of `dualPointsList[cc]`. -/
def resolveDualPoint (cc : Nat) (edge : Nat) : Nat :=
  firstMatch (dualPointsList.getD cc [0, 0, 0, 0]) edge

/-- Dual point code `DualMC::_getDualPointCode`: the (possibly
manifold-corrected) cube code resolved against the edge of interest. -/
def getDualPointCode (v : Volume) (gm : Bool) (x y z : Int) (iso : Nat) (edge : Nat) : Nat :=
  resolveDualPoint (manifoldCellCode v gm x y z iso) edge

/-- Edge interpolation parameter `t = (iso - a) / (b - a)` used by
`_calculateDualPoint` (the float division, modelled over the rationals). -/
def interp (iso a b : Nat) : Rat :=
  ((iso : Rat) - (a : Rat)) / ((b : Rat) - (a : Rat))

/-- Per-edge contributions `(dx, dy, dz)` that `_calculateDualPoint`
accumulates into `p`: for every edge bit set in `pointCode`, one triple
holding the interpolated coordinate on the varying axis and the fixed 0/1
coordinates of the edge, in the order of the twelve `if` blocks. -/
def edgeContributions (v : Volume) (x y z : Int) (iso : Nat) (pointCode : Nat) :
    List (Rat × Rat × Rat) :=
  let s := fun (a b c : Int) => sample v a b c
  (if pointCode &&& EDGE0 ≠ 0 then
    [(interp iso (s x y z) (s (x + 1) y z), 0, 0)] else []) ++
  (if pointCode &&& EDGE1 ≠ 0 then
    [(1, 0, interp iso (s (x + 1) y z) (s (x + 1) y (z + 1)))] else []) ++
  (if pointCode &&& EDGE2 ≠ 0 then
    [(interp iso (s x y (z + 1)) (s (x + 1) y (z + 1)), 0, 1)] else []) ++
  (if pointCode &&& EDGE3 ≠ 0 then
    [(0, 0, interp iso (s x y z) (s x y (z + 1)))] else []) ++
  (if pointCode &&& EDGE4 ≠ 0 then
    [(interp iso (s x (y + 1) z) (s (x + 1) (y + 1) z), 1, 0)] else []) ++
  (if pointCode &&& EDGE5 ≠ 0 then
    [(1, 1, interp iso (s (x + 1) (y + 1) z) (s (x + 1) (y + 1) (z + 1)))] else []) ++
  (if pointCode &&& EDGE6 ≠ 0 then
    [(interp iso (s x (y + 1) (z + 1)) (s (x + 1) (y + 1) (z + 1)), 1, 1)] else []) ++
  (if pointCode &&& EDGE7 ≠ 0 then
    [(0, 1, interp iso (s x (y + 1) z) (s x (y + 1) (z + 1)))] else []) ++
  (if pointCode &&& EDGE8 ≠ 0 then
    [(0, interp iso (s x y z) (s x (y + 1) z), 0)] else []) ++
  (if pointCode &&& EDGE9 ≠ 0 then
    [(1, interp iso (s (x + 1) y z) (s (x + 1) (y + 1) z), 0)] else []) ++
  (if pointCode &&& EDGE10 ≠ 0 then
    [(1, interp iso (s (x + 1) y (z + 1)) (s (x + 1) (y + 1) (z + 1)), 1)] else []) ++
  (if pointCode &&& EDGE11 ≠ 0 then
    [(0, interp iso (s x y (z + 1)) (s x (y + 1) (z + 1)), 1)] else [])

/-- Dual point geometry `DualMC::_calculateDualPoint`: the mean of the edge
intersection contributions, offset by the cell's low corner `(x,y,z)`.
The `points` counter of the source is the length of the contribution list
and `invPoints = 1 / points` is the final division. -/
def calculateDualPoint (v : Volume) (x y z : Int) (iso : Nat) (pointCode : Nat) : Vertex :=
  let cs := edgeContributions v x y z iso pointCode
  let points := cs.length
  let invPoints : Rat := 1 / (points : Rat)
  ⟨(x : Rat) + (cs.map (fun c => c.1)).sum * invPoints,
   (y : Rat) + (cs.map (fun c => c.2.1)).sum * invPoints,
   (z : Rat) + (cs.map (fun c => c.2.2)).sum * invPoints⟩

/-- Key of the vertex cache `pointToIndex` (`DualMC::DualPointKey`). -/
structure DualPointKey where
  linearizedCellID : Int
  pointCode : Nat
deriving DecidableEq

/-- The `unordered_map` vertex cache, as an association list. -/
abbrev Cache : Type := List (DualPointKey × Nat)

/-- Lookup in the cache, the `pointToIndex.find(key)` call. -/
def lookupCache (cache : Cache) (key : DualPointKey) : Option Nat :=
  match cache with
  | [] => none
  | e :: rest => if e.1 = key then some e.2 else lookupCache rest key

/-- Shared vertex lookup `DualMC::_getSharedDualPointIndex`: build the
`(linearized cell id, point code)` key; on a cache hit return the stored
index, otherwise append the newly computed dual point to the vertex list
and record its index. -/
def getSharedDualPointIndex (v : Volume) (gm : Bool) (iso : Nat) (x y z : Int)
    (edge : Nat) (verts : List Vertex) (cache : Cache) :
    Nat × List Vertex × Cache :=
  let key : DualPointKey := ⟨index v x y z, getDualPointCode v gm x y z iso edge⟩
  match lookupCache cache key with
  | some i => (i, verts, cache)
  | none =>
    let newVertexId := verts.length
    (newVertexId, verts ++ [calculateDualPoint v x y z iso key.pointCode],
     (key, newVertexId) :: cache)

/-- State threaded through the shared-vertices sweep: the output vertex
list, the output quad list and the member cache `pointToIndex`. -/
structure SState where
  verts : List Vertex
  quads : List Quad
  cache : Cache
deriving DecidableEq

/-- Emission of one shared-mode quad: fetch the four dual point indices in
order (threading the vertex list and the cache) and append the quad in
forward winding `(i0,i1,i2,i3)` or reversed winding `(i0,i3,i2,i1)`. -/
def sharedEmitQuad (v : Volume) (gm : Bool) (iso : Nat)
    (x0 y0 z0 x1 y1 z1 x2 y2 z2 x3 y3 z3 : Int)
    (e0 e1 e2 e3 : Nat) (forward : Bool) (st : SState) : SState :=
  let r0 := getSharedDualPointIndex v gm iso x0 y0 z0 e0 st.verts st.cache
  let r1 := getSharedDualPointIndex v gm iso x1 y1 z1 e1 r0.2.1 r0.2.2
  let r2 := getSharedDualPointIndex v gm iso x2 y2 z2 e2 r1.2.1 r1.2.2
  let r3 := getSharedDualPointIndex v gm iso x3 y3 z3 e3 r2.2.1 r2.2.2
  ⟨r3.2.1,
   st.quads ++ [if forward then ⟨r0.1, r1.1, r2.1, r3.1⟩ else ⟨r0.1, r3.1, r2.1, r1.1⟩],
   r3.2.2⟩

/-- Body of the shared-mode triple loop for one voxel position `(x,y,z)`:
the X-edge, Y-edge and Z-edge blocks of `_buildSharedVerticesQuads` in
order.  The X block fetches edges 0/2/6/4 from the cells `(x,y,z)`,
`(x,y,z-1)`, `(x,y-1,z-1)`, `(x,y-1,z)` and winds forward on `entering`;
the Y and Z blocks wind forward on `exiting`. -/
def sharedCell (v : Volume) (gm : Bool) (iso : Nat) (st : SState)
    (p : Int × Int × Int) : SState :=
  let x := p.1
  let y := p.2.1
  let z := p.2.2
  let st1 :=
    if z > 0 ∧ y > 0 then
      let entering := decide (sample v x y z < iso ∧ iso ≤ sample v (x + 1) y z)
      let exiting := decide (iso ≤ sample v x y z ∧ sample v (x + 1) y z < iso)
      if entering || exiting then
        sharedEmitQuad v gm iso x y z x y (z - 1) x (y - 1) (z - 1) x (y - 1) z
          EDGE0 EDGE2 EDGE6 EDGE4 entering st
      else st
    else st
  let st2 :=
    if z > 0 ∧ x > 0 then
      let entering := decide (sample v x y z < iso ∧ iso ≤ sample v x (y + 1) z)
      let exiting := decide (iso ≤ sample v x y z ∧ sample v x (y + 1) z < iso)
      if entering || exiting then
        sharedEmitQuad v gm iso x y z x y (z - 1) (x - 1) y (z - 1) (x - 1) y z
          EDGE8 EDGE11 EDGE10 EDGE9 exiting st1
      else st1
    else st1
  if x > 0 ∧ y > 0 then
    let entering := decide (sample v x y z < iso ∧ iso ≤ sample v x y (z + 1))
    let exiting := decide (iso ≤ sample v x y z ∧ sample v x y (z + 1) < iso)
    if entering || exiting then
      sharedEmitQuad v gm iso x y z (x - 1) y z (x - 1) (y - 1) z x (y - 1) z
        EDGE3 EDGE1 EDGE5 EDGE7 exiting st2
    else st2
  else st2

/-- Integer loop range `0, 1, ..., n-1` (empty when `n ≤ 0`). -/
def intRange (n : Int) : List Int :=
  (List.range n.toNat).map Int.ofNat

/-- Voxel positions of the triple nested loop of both sweeps: `z` outer,
`y` middle, `x` inner, each axis running over `[0, dim - 2)`. -/
def cellPositions (v : Volume) : List (Int × Int × Int) :=
  (intRange (v.dimZ - 2)).flatMap fun z =>
    (intRange (v.dimY - 2)).flatMap fun y =>
      (intRange (v.dimX - 2)).map fun x => (x, y, z)

/-- Shared-vertices sweep `DualMC::_buildSharedVerticesQuads`: clear the
member cache `pointToIndex`, then run the triple loop. -/
def buildSharedVerticesQuads (v : Volume) (gm : Bool) (iso : Nat)
    (verts0 : List Vertex) (quads0 : List Quad) (cache0 : Cache) : SState :=
  let cache : Cache := ((fun _ => []) : Cache → Cache) cache0
  (cellPositions v).foldl (sharedCell v gm iso) ⟨verts0, quads0, cache⟩

/-- Emission of four soup vertices: compute the four dual points directly
(no cache) and append them in the winding-sensitive order. -/
def soupEmitQuad (v : Volume) (gm : Bool) (iso : Nat)
    (x0 y0 z0 x1 y1 z1 x2 y2 z2 x3 y3 z3 : Int)
    (e0 e1 e2 e3 : Nat) (forward : Bool) (verts : List Vertex) : List Vertex :=
  let v0 := calculateDualPoint v x0 y0 z0 iso (getDualPointCode v gm x0 y0 z0 iso e0)
  let v1 := calculateDualPoint v x1 y1 z1 iso (getDualPointCode v gm x1 y1 z1 iso e1)
  let v2 := calculateDualPoint v x2 y2 z2 iso (getDualPointCode v gm x2 y2 z2 iso e2)
  let v3 := calculateDualPoint v x3 y3 z3 iso (getDualPointCode v gm x3 y3 z3 iso e3)
  verts ++ (if forward then [v0, v1, v2, v3] else [v0, v3, v2, v1])

/-- Body of the soup-mode triple loop for one voxel position: the same
three guarded edge blocks as `sharedCell`, with direct vertex emission. -/
def soupCell (v : Volume) (gm : Bool) (iso : Nat) (verts : List Vertex)
    (p : Int × Int × Int) : List Vertex :=
  let x := p.1
  let y := p.2.1
  let z := p.2.2
  let vs1 :=
    if z > 0 ∧ y > 0 then
      let entering := decide (sample v x y z < iso ∧ iso ≤ sample v (x + 1) y z)
      let exiting := decide (iso ≤ sample v x y z ∧ sample v (x + 1) y z < iso)
      if entering || exiting then
        soupEmitQuad v gm iso x y z x y (z - 1) x (y - 1) (z - 1) x (y - 1) z
          EDGE0 EDGE2 EDGE6 EDGE4 entering verts
      else verts
    else verts
  let vs2 :=
    if z > 0 ∧ x > 0 then
      let entering := decide (sample v x y z < iso ∧ iso ≤ sample v x (y + 1) z)
      let exiting := decide (iso ≤ sample v x y z ∧ sample v x (y + 1) z < iso)
      if entering || exiting then
        soupEmitQuad v gm iso x y z x y (z - 1) (x - 1) y (z - 1) (x - 1) y z
          EDGE8 EDGE11 EDGE10 EDGE9 exiting vs1
      else vs1
    else vs1
  if x > 0 ∧ y > 0 then
    let entering := decide (sample v x y z < iso ∧ iso ≤ sample v x y (z + 1))
    let exiting := decide (iso ≤ sample v x y z ∧ sample v x y (z + 1) < iso)
    if entering || exiting then
      soupEmitQuad v gm iso x y z (x - 1) y z (x - 1) (y - 1) z x (y - 1) z
        EDGE3 EDGE1 EDGE5 EDGE7 exiting vs2
    else vs2
  else vs2

/-- Soup sweep `DualMC::_buildQuadSoup`: run the triple loop appending
vertices, then synthesize the quads `(4k, 4k+1, 4k+2, 4k+3)` for
`k < vertices.size() / 4`. -/
def buildQuadSoup (v : Volume) (gm : Bool) (iso : Nat)
    (verts0 : List Vertex) (quads0 : List Quad) : List Vertex × List Quad :=
  let verts := (cellPositions v).foldl (soupCell v gm iso) verts0
  let numQuads := verts.length / 4
  (verts,
   quads0 ++ (List.range numQuads).map (fun i => ⟨i * 4, i * 4 + 1, i * 4 + 2, i * 4 + 3⟩))

/-- Entry point `DualMC::build`: clear the output vertex and quad buffers,
then dispatch to the soup or shared sweep.  The member cache is threaded
explicitly: the soup sweep never touches it, the shared sweep clears it. -/
def build (v : Volume) (iso : Nat) (gm soup : Bool)
    (verts0 : List Vertex) (quads0 : List Quad) (cache0 : Cache) : SState :=
  let verts : List Vertex := ((fun _ => []) : List Vertex → List Vertex) verts0
  let quads : List Quad := ((fun _ => []) : List Quad → List Quad) quads0
  if soup then
    let r := buildQuadSoup v gm iso verts quads
    ⟨r.1, r.2, cache0⟩
  else
    buildSharedVerticesQuads v gm iso verts quads cache0

/-- Engine member state of a `DualMC` object: the stored borrow of the
caller's sample array (`_volumeGrid`, `none` before any call), the stored
dimensions, the manifold flag and the vertex cache. -/
structure DualMCState where
  volumeGrid : Option (List Nat)
  volumeDimensions : Int × Int × Int
  generateManifold : Bool
  pointToIndex : Cache
deriving DecidableEq

/-- Freshly constructed engine: no volume borrowed yet, empty cache. -/
def initialState : DualMCState :=
  ⟨none, (0, 0, 0), false, []⟩

/-- The `build` call at the level of the engine object: lines 348–352 of
`dualmc.cpp` store the data pointer, the dimensions and the manifold flag
into members before extraction, and nothing ever resets them. -/
def buildWithState (st : DualMCState) (data : List Nat) (x y z : Int)
    (iso : Nat) (gm soup : Bool) (verts0 : List Vertex) (quads0 : List Quad) :
    DualMCState × List Vertex × List Quad :=
  let v : Volume := ⟨data, x, y, z⟩
  let r := build v iso gm soup verts0 quads0 st.pointToIndex
  (⟨some data, (x, y, z), gm, r.cache⟩, r.verts, r.quads)

/-! Spec-side definitions: corner and edge geometry as described in the
specification, the spec's wording of the manifold flip condition, the
dereferenced quad list used for the soup equivalence, and executable
checkers for the table invariants. -/

/-- Corner coordinate offsets in the Morton-like order used by
`_getCellCode` (corner k at `(x,y,z) + cornerOffset k`). -/
def cornerOffset : Nat → Int × Int × Int
  | 0 => (0, 0, 0)
  | 1 => (1, 0, 0)
  | 2 => (0, 1, 0)
  | 3 => (1, 1, 0)
  | 4 => (0, 0, 1)
  | 5 => (1, 0, 1)
  | 6 => (0, 1, 1)
  | _ => (1, 1, 1)

/-- Sample at corner `k` of the cell with low corner `(x,y,z)`. -/
def sampleCorner (v : Volume) (x y z : Int) (k : Nat) : Nat :=
  sample v (x + (cornerOffset k).1) (y + (cornerOffset k).2.1) (z + (cornerOffset k).2.2)

/-- Low corner index of cell edge `k` (from the pairs of samples read by
the twelve edge blocks of `_calculateDualPoint`). -/
def edgeCornerA (k : Nat) : Nat :=
  [0, 1, 4, 0, 2, 3, 6, 2, 0, 1, 5, 4].getD k 0

/-- High corner index of cell edge `k`. -/
def edgeCornerB (k : Nat) : Nat :=
  [1, 5, 5, 4, 3, 7, 7, 6, 2, 3, 7, 6].getD k 0

/-- The two endpoint samples of cell edge `k` lie on opposite sides of the
iso value (one < iso, the other ≥ iso). -/
def straddles (v : Volume) (iso : Nat) (x y z : Int) (k : Nat) : Prop :=
  (sampleCorner v x y z (edgeCornerA k) < iso ∧ iso ≤ sampleCorner v x y z (edgeCornerB k)) ∨
  (iso ≤ sampleCorner v x y z (edgeCornerA k) ∧ sampleCorner v x y z (edgeCornerB k) < iso)

/-- Number of set edge bits of a point code among edges 0..11: the value
of the `points` counter of `_calculateDualPoint`. -/
def countEdges (p : Nat) : Nat :=
  (if p &&& EDGE0 ≠ 0 then 1 else 0) + (if p &&& EDGE1 ≠ 0 then 1 else 0) +
  (if p &&& EDGE2 ≠ 0 then 1 else 0) + (if p &&& EDGE3 ≠ 0 then 1 else 0) +
  (if p &&& EDGE4 ≠ 0 then 1 else 0) + (if p &&& EDGE5 ≠ 0 then 1 else 0) +
  (if p &&& EDGE6 ≠ 0 then 1 else 0) + (if p &&& EDGE7 ≠ 0 then 1 else 0) +
  (if p &&& EDGE8 ≠ 0 then 1 else 0) + (if p &&& EDGE9 ≠ 0 then 1 else 0) +
  (if p &&& EDGE10 ≠ 0 then 1 else 0) + (if p &&& EDGE11 ≠ 0 then 1 else 0)

/-- Spec wording of the manifold flip condition (§4.3 of the spec): let
`dir = ambiguous_face_dir[cell_code]`; the code is flipped iff `dir ≠ 255`,
the neighbor obtained by adding `delta = +1 (if dir & 1) else -1` on axis
`dir >> 1` has that axis coordinate in `[0, dims[axis] - 1)`, and the
neighbor's table entry is also ≠ 255. -/
def specFlipCond (v : Volume) (x y z : Int) (iso : Nat) : Bool :=
  let cc := getCellCode v x y z iso
  let dir := problematicConfig cc
  let axis := dir >>> 1
  let delta : Int := if dir &&& 1 = 1 then 1 else -1
  let nbrX := if axis = 0 then x + delta else x
  let nbrY := if axis = 1 then y + delta else y
  let nbrZ := if axis = 2 then z + delta else z
  let ncoord := if axis = 0 then nbrX else if axis = 1 then nbrY else nbrZ
  decide (dir ≠ 255) && decide (0 ≤ ncoord) && decide (ncoord < dim v axis - 1) &&
    decide (problematicConfig (getCellCode v nbrX nbrY nbrZ iso) ≠ 255)

/-- Dereference every quad of a shared mesh into the four vertex positions
it refers to, in quad order. -/
def derefQuads (verts : List Vertex) (quads : List Quad) : List Vertex :=
  quads.flatMap fun q =>
    [verts.getD q.i0 ⟨0, 0, 0⟩, verts.getD q.i1 ⟨0, 0, 0⟩,
     verts.getD q.i2 ⟨0, 0, 0⟩, verts.getD q.i3 ⟨0, 0, 0⟩]

/-- Fold a per-row boolean check over an indexed table. -/
def checkRows (f : Nat → List Nat → Bool) : Nat → List (List Nat) → Bool
  | _, [] => true
  | cc, row :: rest => f cc row && checkRows f (cc + 1) rest

/-- Corner bits of a cell code differ across edge `k`. -/
def cornerBitsDiffer (cc k : Nat) : Bool :=
  cc.testBit (edgeCornerA k) != cc.testBit (edgeCornerB k)

/-- Row check: every edge bit of every slot joins two corners that the
cell code puts on opposite sides of the iso surface. -/
def rowOppositeOK (cc : Nat) (row : List Nat) : Bool :=
  row.all fun s => (List.range 12).all fun k => !s.testBit k || cornerBitsDiffer cc k

/-- Row check: every edge whose corners the cell code separates is covered
by some slot of the row (so the resolver returns a non-zero code for it). -/
def rowCoverageOK (cc : Nat) (row : List Nat) : Bool :=
  (List.range 12).all fun k =>
    !cornerBitsDiffer cc k || decide (firstMatch row (2 ^ k) ≠ 0)

/-- Combination of eight corner flags into an 8-bit code, the shape of the
eight `code |= bit` statements of `_getCellCode`. -/
def orBits (b0 b1 b2 b3 b4 b5 b6 b7 : Bool) : Nat :=
  (cond b0 1 0) ||| (cond b1 2 0) ||| (cond b2 4 0) ||| (cond b3 8 0) |||
  (cond b4 16 0) ||| (cond b5 32 0) ||| (cond b6 64 0) ||| (cond b7 128 0)

/-- Coordinates of a valid voxel of the volume. -/
def inBox (v : Volume) (x y z : Int) : Prop :=
  0 ≤ x ∧ x < v.dimX ∧ 0 ≤ y ∧ y < v.dimY ∧ 0 ≤ z ∧ z < v.dimZ

/-- Cache correctness: every cached index points at a vertex of the output
list holding the dual point of the cached cell and point code, for a cell
inside the volume. -/
def CacheOK (v : Volume) (iso : Nat) (verts : List Vertex) (cache : Cache) : Prop :=
  ∀ key i, lookupCache cache key = some i →
    ∃ x y z, inBox v x y z ∧ key.linearizedCellID = index v x y z ∧
      i < verts.length ∧
      verts.getD i ⟨0, 0, 0⟩ = calculateDualPoint v x y z iso key.pointCode

/-- Every quad references four existing vertex indices. -/
def QuadsOK (verts : List Vertex) (quads : List Quad) : Prop :=
  ∀ q ∈ quads, q.i0 < verts.length ∧ q.i1 < verts.length ∧
    q.i2 < verts.length ∧ q.i3 < verts.length

/-- Simulation invariant between a shared-mode sweep state and the vertex
list accumulated so far by the soup-mode sweep: the cache and quads are
well formed and the soup vertices are exactly the dereferenced quads. -/
def StateInv (v : Volume) (iso : Nat) (st : SState) (soupVerts : List Vertex) : Prop :=
  CacheOK v iso st.verts st.cache ∧ QuadsOK st.verts st.quads ∧
  soupVerts = derefQuads st.verts st.quads

/-- Sequential fetch of the four shared dual point indices of one quad, as
the specification describes it (§4.7): four cache lookups threading the
vertex list and cache. -/
def specFetchQuad (v : Volume) (gm : Bool) (iso : Nat)
    (x0 y0 z0 : Int) (e0 : Nat) (x1 y1 z1 : Int) (e1 : Nat)
    (x2 y2 z2 : Int) (e2 : Nat) (x3 y3 z3 : Int) (e3 : Nat)
    (st : SState) : (Nat × Nat × Nat × Nat) × List Vertex × Cache :=
  let r0 := getSharedDualPointIndex v gm iso x0 y0 z0 e0 st.verts st.cache
  let r1 := getSharedDualPointIndex v gm iso x1 y1 z1 e1 r0.2.1 r0.2.2
  let r2 := getSharedDualPointIndex v gm iso x2 y2 z2 e2 r1.2.1 r1.2.2
  let r3 := getSharedDualPointIndex v gm iso x3 y3 z3 e3 r2.2.1 r2.2.2
  ((r0.1, r1.1, r2.1, r3.1), r3.2.1, r3.2.2)

/-- Spec wording of the X-edge block (§4.7): when `z > 0 ∧ y > 0`, test the
grid edge `(x,y,z) → (x+1,y,z)`; on intersection fetch edges 0/2/6/4 from
cells `(x,y,z)`, `(x,y,z-1)`, `(x,y-1,z-1)`, `(x,y-1,z)`, and emit
`(i0,i1,i2,i3)` when entering, `(i0,i3,i2,i1)` when exiting. -/
def specXQuadBlock (v : Volume) (gm : Bool) (iso : Nat) (x y z : Int) (st : SState) : SState :=
  if z > 0 ∧ y > 0 then
    let f := specFetchQuad v gm iso x y z EDGE0 x y (z - 1) EDGE2
      x (y - 1) (z - 1) EDGE6 x (y - 1) z EDGE4 st
    if sample v x y z < iso ∧ iso ≤ sample v (x + 1) y z then
      ⟨f.2.1, st.quads ++ [⟨f.1.1, f.1.2.1, f.1.2.2.1, f.1.2.2.2⟩], f.2.2⟩
    else if iso ≤ sample v x y z ∧ sample v (x + 1) y z < iso then
      ⟨f.2.1, st.quads ++ [⟨f.1.1, f.1.2.2.2, f.1.2.2.1, f.1.2.1⟩], f.2.2⟩
    else st
  else st

/-- Spec wording of the Y-edge block (§4.7): when `z > 0 ∧ x > 0`, test the
grid edge `(x,y,z) → (x,y+1,z)`; on intersection fetch edges 8/11/10/9 from
cells `(x,y,z)`, `(x,y,z-1)`, `(x-1,y,z-1)`, `(x-1,y,z)`, and emit
`(i0,i1,i2,i3)` when exiting, `(i0,i3,i2,i1)` when entering (the swapped
convention). -/
def specYQuadBlock (v : Volume) (gm : Bool) (iso : Nat) (x y z : Int) (st : SState) : SState :=
  if z > 0 ∧ x > 0 then
    let f := specFetchQuad v gm iso x y z EDGE8 x y (z - 1) EDGE11
      (x - 1) y (z - 1) EDGE10 (x - 1) y z EDGE9 st
    if iso ≤ sample v x y z ∧ sample v x (y + 1) z < iso then
      ⟨f.2.1, st.quads ++ [⟨f.1.1, f.1.2.1, f.1.2.2.1, f.1.2.2.2⟩], f.2.2⟩
    else if sample v x y z < iso ∧ iso ≤ sample v x (y + 1) z then
      ⟨f.2.1, st.quads ++ [⟨f.1.1, f.1.2.2.2, f.1.2.2.1, f.1.2.1⟩], f.2.2⟩
    else st
  else st

/-- Spec wording of the Z-edge block (§4.7): when `x > 0 ∧ y > 0`, test the
grid edge `(x,y,z) → (x,y,z+1)`; on intersection fetch edges 3/1/5/7 from
cells `(x,y,z)`, `(x-1,y,z)`, `(x-1,y-1,z)`, `(x,y-1,z)`, and emit
`(i0,i1,i2,i3)` when exiting, `(i0,i3,i2,i1)` when entering. -/
def specZQuadBlock (v : Volume) (gm : Bool) (iso : Nat) (x y z : Int) (st : SState) : SState :=
  if x > 0 ∧ y > 0 then
    let f := specFetchQuad v gm iso x y z EDGE3 (x - 1) y z EDGE1
      (x - 1) (y - 1) z EDGE5 x (y - 1) z EDGE7 st
    if iso ≤ sample v x y z ∧ sample v x y (z + 1) < iso then
      ⟨f.2.1, st.quads ++ [⟨f.1.1, f.1.2.1, f.1.2.2.1, f.1.2.2.2⟩], f.2.2⟩
    else if sample v x y z < iso ∧ iso ≤ sample v x y (z + 1) then
      ⟨f.2.1, st.quads ++ [⟨f.1.1, f.1.2.2.2, f.1.2.2.1, f.1.2.1⟩], f.2.2⟩
    else st
  else st

/-- Spec wording of the whole per-voxel step: the X, Y and Z edge blocks
applied in order. -/
def specSharedCell (v : Volume) (gm : Bool) (iso : Nat) (st : SState)
    (p : Int × Int × Int) : SState :=
  specZQuadBlock v gm iso p.1 p.2.1 p.2.2
    (specYQuadBlock v gm iso p.1 p.2.1 p.2.2
      (specXQuadBlock v gm iso p.1 p.2.1 p.2.2 st))

/-! Concrete fixtures used by witnesses and counterexamples. -/

/-- Stale cache entry left over from a previous extraction. -/
def cacheStale : Cache := [(⟨0, 0⟩, 5)]

/-- Minimal quad-producing volume: dimensions 3×4×4, every sample 0 except
sample (1,1,1) = 255.  Its only intersected interior edge is the X edge
from (0,1,1) to (1,1,1). -/
def volMin : Volume :=
  ⟨(List.range 48).map (fun i => if i = 16 then 255 else 0), 3, 4, 4⟩

/-- The same samples as `volMin` with one extra trailing entry: the data
length 49 disagrees with nx·ny·nz = 48. -/
def volBad : Volume :=
  ⟨((List.range 48).map (fun i => if i = 16 then 255 else 0)) ++ [0], 3, 4, 4⟩

/-- Degenerate volume with a dimension below 2. -/
def volFlat : Volume :=
  ⟨[0], 1, 3, 3⟩

/-! General helper lemmas. -/

lemma and_two_pow_ne_zero (n k : Nat) : n &&& 2 ^ k ≠ 0 ↔ n.testBit k = true := by
  rw [Nat.and_two_pow]
  cases h : n.testBit k <;> simp [h]

lemma orBits_testBit (b0 b1 b2 b3 b4 b5 b6 b7 : Bool) :
    (orBits b0 b1 b2 b3 b4 b5 b6 b7).testBit 0 = b0 ∧
    (orBits b0 b1 b2 b3 b4 b5 b6 b7).testBit 1 = b1 ∧
    (orBits b0 b1 b2 b3 b4 b5 b6 b7).testBit 2 = b2 ∧
    (orBits b0 b1 b2 b3 b4 b5 b6 b7).testBit 3 = b3 ∧
    (orBits b0 b1 b2 b3 b4 b5 b6 b7).testBit 4 = b4 ∧
    (orBits b0 b1 b2 b3 b4 b5 b6 b7).testBit 5 = b5 ∧
    (orBits b0 b1 b2 b3 b4 b5 b6 b7).testBit 6 = b6 ∧
    (orBits b0 b1 b2 b3 b4 b5 b6 b7).testBit 7 = b7 := by
  revert b0 b1 b2 b3 b4 b5 b6 b7
  decide

lemma orBits_lt (b0 b1 b2 b3 b4 b5 b6 b7 : Bool) :
    orBits b0 b1 b2 b3 b4 b5 b6 b7 < 256 := by
  revert b0 b1 b2 b3 b4 b5 b6 b7
  decide

lemma getCellCode_eq_orBits (v : Volume) (x y z : Int) (iso : Nat) :
    getCellCode v x y z iso =
      orBits (decide (iso ≤ sample v x y z)) (decide (iso ≤ sample v (x + 1) y z))
        (decide (iso ≤ sample v x (y + 1) z)) (decide (iso ≤ sample v (x + 1) (y + 1) z))
        (decide (iso ≤ sample v x y (z + 1))) (decide (iso ≤ sample v (x + 1) y (z + 1)))
        (decide (iso ≤ sample v x (y + 1) (z + 1)))
        (decide (iso ≤ sample v (x + 1) (y + 1) (z + 1))) := by
  simp only [getCellCode, orBits, Bool.cond_decide]

lemma sampleCorner_eq (v : Volume) (x y z : Int) :
    sampleCorner v x y z 0 = sample v x y z ∧
    sampleCorner v x y z 1 = sample v (x + 1) y z ∧
    sampleCorner v x y z 2 = sample v x (y + 1) z ∧
    sampleCorner v x y z 3 = sample v (x + 1) (y + 1) z ∧
    sampleCorner v x y z 4 = sample v x y (z + 1) ∧
    sampleCorner v x y z 5 = sample v (x + 1) y (z + 1) ∧
    sampleCorner v x y z 6 = sample v x (y + 1) (z + 1) ∧
    sampleCorner v x y z 7 = sample v (x + 1) (y + 1) (z + 1) := by
  refine ⟨?_, ?_, ?_, ?_, ?_, ?_, ?_, ?_⟩ <;>
    simp [sampleCorner, cornerOffset]

lemma getCellCode_testBit (v : Volume) (x y z : Int) (iso : Nat) (k : Nat) (hk : k < 8) :
    (getCellCode v x y z iso).testBit k = decide (iso ≤ sampleCorner v x y z k) := by
  rw [getCellCode_eq_orBits]
  obtain ⟨h0, h1, h2, h3, h4, h5, h6, h7⟩ := orBits_testBit
    (decide (iso ≤ sample v x y z)) (decide (iso ≤ sample v (x + 1) y z))
    (decide (iso ≤ sample v x (y + 1) z)) (decide (iso ≤ sample v (x + 1) (y + 1) z))
    (decide (iso ≤ sample v x y (z + 1))) (decide (iso ≤ sample v (x + 1) y (z + 1)))
    (decide (iso ≤ sample v x (y + 1) (z + 1)))
    (decide (iso ≤ sample v (x + 1) (y + 1) (z + 1)))
  obtain ⟨c0, c1, c2, c3, c4, c5, c6, c7⟩ := sampleCorner_eq v x y z
  interval_cases k
  · rw [h0, c0]
  · rw [h1, c1]
  · rw [h2, c2]
  · rw [h3, c3]
  · rw [h4, c4]
  · rw [h5, c5]
  · rw [h6, c6]
  · rw [h7, c7]

lemma getCellCode_lt (v : Volume) (x y z : Int) (iso : Nat) :
    getCellCode v x y z iso < 256 := by
  rw [getCellCode_eq_orBits]
  exact orBits_lt _ _ _ _ _ _ _ _

lemma xor255_lt {c : Nat} (hc : c < 256) : c ^^^ 255 < 256 := by
  have h255 : (255 : Nat) < 2 ^ 8 := by norm_num
  have := Nat.xor_lt_two_pow (n := 8) (by simpa using hc) h255
  simpa using this

lemma xor255_testBit (c : Nat) (k : Nat) (hk : k < 8) :
    (c ^^^ 255).testBit k = !(c.testBit k) := by
  rw [Nat.testBit_xor]
  have h255 : (255 : Nat).testBit k = true := by
    interval_cases k <;> rfl
  rw [h255]
  cases c.testBit k <;> rfl

lemma manifoldCellCode_cases (v : Volume) (gm : Bool) (x y z : Int) (iso : Nat) :
    manifoldCellCode v gm x y z iso = getCellCode v x y z iso ∨
    manifoldCellCode v gm x y z iso = getCellCode v x y z iso ^^^ 255 := by
  simp only [manifoldCellCode]
  split_ifs <;> simp

set_option maxRecDepth 8192 in
lemma dualPointsList_length : dualPointsList.length = 256 := by decide

set_option maxRecDepth 8192 in
lemma problematicConfigs_length : problematicConfigs.length = 256 := by decide

lemma manifoldCellCode_lt (v : Volume) (gm : Bool) (x y z : Int) (iso : Nat) :
    manifoldCellCode v gm x y z iso < 256 := by
  rcases manifoldCellCode_cases v gm x y z iso with h | h <;> rw [h]
  · exact getCellCode_lt v x y z iso
  · exact xor255_lt (getCellCode_lt v x y z iso)

/-- Claim C10: for every cell the classifier returns a code in [0,255]; the
manifold-corrected code (in particular the flipped code `cc ^^^ 0xff`) also
stays in [0,255]; both lookup tables have exactly 256 entries, so every
table access made with these codes is within bounds. -/
theorem cell_code_table_access_in_bounds :
    ∀ (v : Volume) (gm : Bool) (x y z : Int) (iso : Nat),
      getCellCode v x y z iso < 256 ∧
      getCellCode v x y z iso ^^^ 255 < 256 ∧
      manifoldCellCode v gm x y z iso < 256 ∧
      dualPointsList.length = 256 ∧
      problematicConfigs.length = 256 := by
  intro v gm x y z iso
  exact ⟨getCellCode_lt v x y z iso, xor255_lt (getCellCode_lt v x y z iso),
    manifoldCellCode_lt v gm x y z iso, dualPointsList_length, problematicConfigs_length⟩

/-! First-match semantics of the dual point resolver. -/

lemma firstMatch_eq_find (row : List Nat) (e : Nat) :
    firstMatch row e = ((row.find? fun s => decide (s &&& e ≠ 0)).getD 0) := by
  induction row with
  | nil => rfl
  | cons s rest ih =>
    by_cases h : s &&& e ≠ 0
    · simp [firstMatch, List.find?, h]
    · simp [firstMatch, List.find?, h, ih]

lemma firstMatch_zero_or_meets (row : List Nat) (e : Nat) :
    firstMatch row e = 0 ∨ firstMatch row e &&& e ≠ 0 := by
  induction row with
  | nil => left; rfl
  | cons s rest ih =>
    by_cases h : s &&& e ≠ 0
    · right; simp [firstMatch, h]
    · simpa [firstMatch, h] using ih

lemma firstMatch_mem {row : List Nat} {e : Nat} (h : firstMatch row e ≠ 0) :
    firstMatch row e ∈ row := by
  induction row with
  | nil => exact absurd rfl h
  | cons s rest ih =>
    by_cases hs : s &&& e ≠ 0
    · simp [firstMatch, hs]
    · have h' : firstMatch rest e ≠ 0 := by simpa [firstMatch, hs] using h
      simp only [firstMatch, hs, if_false]
      exact List.mem_cons_of_mem s (ih h')

/-- Claim C3: the resolver returns the first of the four table slots whose
edge mask meets the queried edge bit (`List.find?` order is slot order
0,1,2,3) and 0 when none does; every non-zero result meets the edge bit.
The resolver is a total function by construction. -/
theorem resolver_first_match_semantics :
    ∀ (cc e : Nat),
      resolveDualPoint cc e =
        (((dualPointsList.getD cc [0, 0, 0, 0]).find? fun s => decide (s &&& e ≠ 0)).getD 0) ∧
      (resolveDualPoint cc e = 0 ∨ resolveDualPoint cc e &&& e ≠ 0) := by
  intro cc e
  exact ⟨firstMatch_eq_find _ e, firstMatch_zero_or_meets _ e⟩

lemma cond_flip_eq (d : Nat) (nc dimc : Int) (pc cc : Nat) :
    (if d ≠ 255 then
      (if 0 ≤ nc ∧ nc < dimc - 1 then (if pc ≠ 255 then cc ^^^ 255 else cc) else cc)
     else cc) =
    cond (decide (d ≠ 255) && decide (0 ≤ nc) && decide (nc < dimc - 1) &&
        decide (pc ≠ 255))
      (cc ^^^ 255) cc := by
  by_cases hd : d = 255 <;> by_cases h1 : 0 ≤ nc <;> by_cases h2 : nc < dimc - 1 <;>
    by_cases h3 : pc = 255 <;> simp [hd, h1, h2, h3]

/-- Claim C2: with manifold mode on, the cell code used for dual point
resolution is `cell_code XOR 0xFF` exactly when the spec's flip condition
holds — the table direction is ≠ 255, the neighbor reached by `delta = +1
if (dir & 1) else -1` on axis `dir >> 1` has its axis coordinate in
`[0, dims[axis]-1)`, and the neighbor's table entry is ≠ 255 — and the
plain cell code otherwise; with manifold mode off the cell code is always
used unchanged. -/
theorem manifold_flip_characterization :
    ∀ (v : Volume) (x y z : Int) (iso : Nat) (e : Nat),
      manifoldCellCode v true x y z iso =
        cond (specFlipCond v x y z iso) (getCellCode v x y z iso ^^^ 255)
          (getCellCode v x y z iso) ∧
      manifoldCellCode v false x y z iso = getCellCode v x y z iso ∧
      getDualPointCode v true x y z iso e =
        resolveDualPoint (manifoldCellCode v true x y z iso) e ∧
      getDualPointCode v false x y z iso e =
        resolveDualPoint (getCellCode v x y z iso) e := by
  intro v x y z iso e
  refine ⟨?_, by simp [manifoldCellCode], rfl, by simp [getDualPointCode, manifoldCellCode]⟩
  simp only [manifoldCellCode, specFlipCond, Nat.shiftRight_eq_div_pow, pow_one,
    Nat.and_one_is_mod, if_true]
  exact cond_flip_eq _ _ _ _ _

/-! Degenerate dimensions. -/

lemma intRange_nonpos {n : Int} (h : n ≤ 0) : intRange n = [] := by
  simp [intRange, Int.toNat_of_nonpos h]

lemma flatMap_const_nil {α β : Type} (l : List α) :
    (l.flatMap fun _ => ([] : List β)) = [] := by
  induction l with
  | nil => rfl
  | cons a t ih => simp [List.flatMap_cons, ih]

lemma cellPositions_empty (v : Volume)
    (h : v.dimX < 2 ∨ v.dimY < 2 ∨ v.dimZ < 2) : cellPositions v = [] := by
  rcases h with h | h | h
  · have hx : intRange (v.dimX - 2) = [] := intRange_nonpos (by omega)
    simp [cellPositions, hx, flatMap_const_nil]
  · have hy : intRange (v.dimY - 2) = [] := intRange_nonpos (by omega)
    simp [cellPositions, hy, flatMap_const_nil]
  · have hz : intRange (v.dimZ - 2) = [] := intRange_nonpos (by omega)
    simp [cellPositions, hz]

/-- Claim C8: when any dimension is below 2, `build` succeeds and returns
an empty mesh (no vertices, no quads), in both soup and shared mode. -/
theorem degenerate_dims_empty_mesh :
    ∀ (v : Volume) (iso : Nat) (gm soup : Bool) (v0 : List Vertex)
      (q0 : List Quad) (c0 : Cache),
      v.dimX < 2 ∨ v.dimY < 2 ∨ v.dimZ < 2 →
      (build v iso gm soup v0 q0 c0).verts = [] ∧
      (build v iso gm soup v0 q0 c0).quads = [] := by
  intro v iso gm soup v0 q0 c0 h
  have hc := cellPositions_empty v h
  cases soup
  · simp [build, buildSharedVerticesQuads, hc]
  · simp [build, buildQuadSoup, hc]

/-- Witness for C8 at the concrete volume `volFlat` (dimX = 1 < 2). -/
theorem degenerate_dims_empty_mesh_witness :
    (build volFlat 128 false false [] [] []).verts = [] ∧
    (build volFlat 128 false false [] [] []).quads = [] :=
  degenerate_dims_empty_mesh volFlat 128 false false [] [] [] (Or.inl (by decide))

/-! Validation, buffer clearing and member retention. -/

/-- Counterexample to claim C1: `build` does not fail on a volume whose
data length (49) differs from nx·ny·nz (48); it emits a non-empty mesh. -/
theorem build_invalid_length_emits_mesh :
    volBad.data.length ≠ (volBad.dimX * volBad.dimY * volBad.dimZ).toNat ∧
    (build volBad 128 false false [] [] []).quads ≠ [] := by
  constructor
  · decide
  · decide

/-- Claim C1 (amended): `build` performs no validation at all — it takes a
raw sample pointer, never checks the data length against nx·ny·nz, and
computes no product that could be checked for overflow.  Even when the data
length disagrees with nx·ny·nz it clears the two output buffers and runs
the extraction exactly as on any other input. -/
theorem build_no_validation :
    ∀ (v : Volume) (iso : Nat) (gm soup : Bool) (v0 : List Vertex)
      (q0 : List Quad) (c0 : Cache),
      v.data.length ≠ (v.dimX * v.dimY * v.dimZ).toNat →
      build v iso gm soup v0 q0 c0 = build v iso gm soup [] [] c0 ∧
      (build v iso gm soup v0 q0 c0).verts =
        (if soup then (buildQuadSoup v gm iso [] []).1
         else (buildSharedVerticesQuads v gm iso [] [] c0).verts) ∧
      (build v iso gm soup v0 q0 c0).quads =
        (if soup then (buildQuadSoup v gm iso [] []).2
         else (buildSharedVerticesQuads v gm iso [] [] c0).quads) := by
  intro v iso gm soup v0 q0 c0 _h
  cases soup <;> exact ⟨rfl, rfl, rfl⟩

/-- Witness for the amended C1 at the mismatched-length volume `volBad`. -/
theorem build_no_validation_witness :
    volBad.data.length ≠ (volBad.dimX * volBad.dimY * volBad.dimZ).toNat ∧
    (build volBad 128 false false [] [] [] = build volBad 128 false false [] [] [] ∧
     (build volBad 128 false false [] [] []).verts =
       (if false then (buildQuadSoup volBad false 128 [] []).1
        else (buildSharedVerticesQuads volBad false 128 [] [] []).verts) ∧
     (build volBad 128 false false [] [] []).quads =
       (if false then (buildQuadSoup volBad false 128 [] []).2
        else (buildSharedVerticesQuads volBad false 128 [] [] []).quads)) :=
  ⟨by decide, build_no_validation volBad 128 false false [] [] [] (by decide)⟩

/-- Counterexample to claim C5: a soup-mode `build` leaves a stale vertex
cache in place — the cache is not cleared at the start of every extraction
call, only the shared-mode sweep clears it. -/
theorem soup_mode_does_not_clear_cache :
    (build ⟨[], 1, 1, 1⟩ 1 false true [] [] cacheStale).cache = cacheStale ∧
    cacheStale ≠ [] :=
  ⟨rfl, by decide⟩

/-- Claim C5 (amended): the output vertex and quad buffers are cleared
before writing on every `build` call; the vertex cache is cleared at the
start of every shared-mode extraction (the shared result is independent of
the incoming cache), while soup mode neither uses nor clears the cache. -/
theorem buffers_cleared_and_cache_semantics :
    ∀ (v : Volume) (iso : Nat) (gm soup : Bool) (v0 : List Vertex)
      (q0 : List Quad) (c0 : Cache),
      build v iso gm soup v0 q0 c0 = build v iso gm soup [] [] c0 ∧
      (build v iso gm true v0 q0 c0).cache = c0 ∧
      build v iso gm false v0 q0 c0 = build v iso gm false v0 q0 [] := by
  intro v iso gm soup v0 q0 c0
  refine ⟨?_, rfl, rfl⟩
  cases soup <;> rfl

/-- Counterexample to claim C9: after `build` returns, the engine member
`_volumeGrid` still holds the caller's sample array. -/
theorem volume_borrow_retained_after_build :
    (buildWithState initialState [0] 1 1 1 1 false false [] []).1.volumeGrid = some [0] ∧
    initialState.volumeGrid = none :=
  ⟨rfl, rfl⟩

/-- Claim C9 (amended): `build` stores the caller's array and the call
arguments into the members `_volumeGrid`, `_volumeDimensions` and
`generateManifold`, and they remain set after the call returns; nothing in
the engine resets them. -/
theorem build_stores_volume_in_members :
    ∀ (st : DualMCState) (data : List Nat) (x y z : Int) (iso : Nat)
      (gm soup : Bool) (v0 : List Vertex) (q0 : List Quad),
      (buildWithState st data x y z iso gm soup v0 q0).1.volumeGrid = some data ∧
      (buildWithState st data x y z iso gm soup v0 q0).1.volumeDimensions = (x, y, z) ∧
      (buildWithState st data x y z iso gm soup v0 q0).1.generateManifold = gm := by
  intro st data x y z iso gm soup v0 q0
  exact ⟨rfl, rfl, rfl⟩

/-! Quad stitching: the emitter blocks match the spec's description. -/

lemma xBlock_eq_spec (v : Volume) (gm : Bool) (iso : Nat) (x y z : Int) (st : SState) :
    (if z > 0 ∧ y > 0 then
      let entering := decide (sample v x y z < iso ∧ iso ≤ sample v (x + 1) y z)
      let exiting := decide (iso ≤ sample v x y z ∧ sample v (x + 1) y z < iso)
      if entering || exiting then
        sharedEmitQuad v gm iso x y z x y (z - 1) x (y - 1) (z - 1) x (y - 1) z
          EDGE0 EDGE2 EDGE6 EDGE4 entering st
      else st
    else st) = specXQuadBlock v gm iso x y z st := by
  by_cases hg : z > 0 ∧ y > 0
  · simp only [specXQuadBlock, if_pos hg]
    by_cases he : sample v x y z < iso ∧ iso ≤ sample v (x + 1) y z
    · simp [sharedEmitQuad, specFetchQuad, he]
    · by_cases hx : iso ≤ sample v x y z ∧ sample v (x + 1) y z < iso
      · simp [sharedEmitQuad, specFetchQuad, he, hx]
      · simp [he, hx]
  · simp [specXQuadBlock, hg]

lemma yBlock_eq_spec (v : Volume) (gm : Bool) (iso : Nat) (x y z : Int) (st : SState) :
    (if z > 0 ∧ x > 0 then
      let entering := decide (sample v x y z < iso ∧ iso ≤ sample v x (y + 1) z)
      let exiting := decide (iso ≤ sample v x y z ∧ sample v x (y + 1) z < iso)
      if entering || exiting then
        sharedEmitQuad v gm iso x y z x y (z - 1) (x - 1) y (z - 1) (x - 1) y z
          EDGE8 EDGE11 EDGE10 EDGE9 exiting st
      else st
    else st) = specYQuadBlock v gm iso x y z st := by
  by_cases hg : z > 0 ∧ x > 0
  · simp only [specYQuadBlock, if_pos hg]
    by_cases hx : iso ≤ sample v x y z ∧ sample v x (y + 1) z < iso
    · simp [sharedEmitQuad, specFetchQuad, hx]
    · by_cases he : sample v x y z < iso ∧ iso ≤ sample v x (y + 1) z
      · simp [sharedEmitQuad, specFetchQuad, he, hx]
      · simp [he, hx]
  · simp [specYQuadBlock, hg]

lemma zBlock_eq_spec (v : Volume) (gm : Bool) (iso : Nat) (x y z : Int) (st : SState) :
    (if x > 0 ∧ y > 0 then
      let entering := decide (sample v x y z < iso ∧ iso ≤ sample v x y (z + 1))
      let exiting := decide (iso ≤ sample v x y z ∧ sample v x y (z + 1) < iso)
      if entering || exiting then
        sharedEmitQuad v gm iso x y z (x - 1) y z (x - 1) (y - 1) z x (y - 1) z
          EDGE3 EDGE1 EDGE5 EDGE7 exiting st
      else st
    else st) = specZQuadBlock v gm iso x y z st := by
  by_cases hg : x > 0 ∧ y > 0
  · simp only [specZQuadBlock, if_pos hg]
    by_cases hx : iso ≤ sample v x y z ∧ sample v x y (z + 1) < iso
    · simp [sharedEmitQuad, specFetchQuad, hx]
    · by_cases he : sample v x y z < iso ∧ iso ≤ sample v x y (z + 1)
      · simp [sharedEmitQuad, specFetchQuad, he, hx]
      · simp [he, hx]
  · simp [specZQuadBlock, hg]

lemma sharedCell_eq_spec (v : Volume) (gm : Bool) (iso : Nat) (st : SState)
    (p : Int × Int × Int) : sharedCell v gm iso st p = specSharedCell v gm iso st p := by
  simp only [sharedCell, specSharedCell]
  rw [xBlock_eq_spec, yBlock_eq_spec, zBlock_eq_spec]

/-- Claim C7: for every position, the shared-mode emitter behaves exactly
as the spec describes — the X block (guard `z > 0 ∧ y > 0`) fetches edges
0/2/6/4 from cells `(x,y,z)`, `(x,y,z-1)`, `(x,y-1,z-1)`, `(x,y-1,z)` and
emits `(i0,i1,i2,i3)` on entering, `(i0,i3,i2,i1)` on exiting, while the
Y and Z blocks use the swapped convention, emitting `(i0,i1,i2,i3)` on
exiting and `(i0,i3,i2,i1)` on entering — and the whole sweep is the fold
of these three blocks over the interior voxels. -/
theorem emitter_quad_stitching :
    ∀ (v : Volume) (gm : Bool) (iso : Nat) (st : SState) (x y z : Int)
      (v0 : List Vertex) (q0 : List Quad) (c0 : Cache),
      sharedCell v gm iso st (x, y, z) =
        specZQuadBlock v gm iso x y z
          (specYQuadBlock v gm iso x y z (specXQuadBlock v gm iso x y z st)) ∧
      buildSharedVerticesQuads v gm iso v0 q0 c0 =
        (cellPositions v).foldl (specSharedCell v gm iso) ⟨v0, q0, []⟩ := by
  intro v gm iso st x y z v0 q0 c0
  constructor
  · exact sharedCell_eq_spec v gm iso st (x, y, z)
  · have hfun : sharedCell v gm iso = specSharedCell v gm iso :=
      funext fun st => funext fun p => sharedCell_eq_spec v gm iso st p
    simp only [buildSharedVerticesQuads, hfun]

/-! Table invariants needed for interpolation safety, checked by
evaluation over the 256 table rows. -/

set_option maxRecDepth 16384 in
lemma tableOppositeOK : checkRows rowOppositeOK 0 dualPointsList = true := by decide

set_option maxRecDepth 16384 in
lemma tableCoverageOK : checkRows rowCoverageOK 0 dualPointsList = true := by decide

lemma checkRows_prop (f : Nat → List Nat → Bool) :
    ∀ (l : List (List Nat)) (i : Nat), checkRows f i l = true →
      ∀ j, j < l.length → f (i + j) (l.getD j [0, 0, 0, 0]) = true := by
  intro l
  induction l with
  | nil => intro i _ j hj; simp at hj
  | cons row rest ih =>
    intro i h j hj
    rw [checkRows, Bool.and_eq_true] at h
    obtain ⟨h1, h2⟩ := h
    cases j with
    | zero => simpa using h1
    | succ j' =>
      have h3 := ih (i + 1) h2 j' (by simpa using hj)
      have harith : i + 1 + j' = i + (j' + 1) := by omega
      rw [harith] at h3
      simpa [List.getD_cons_succ] using h3

lemma rowOpposite_spec {cc : Nat} (hcc : cc < 256) :
    ∀ s ∈ dualPointsList.getD cc [0, 0, 0, 0], ∀ k, k < 12 → s.testBit k = true →
      cornerBitsDiffer cc k = true := by
  have h := checkRows_prop rowOppositeOK dualPointsList 0 tableOppositeOK cc
    (by rw [dualPointsList_length]; exact hcc)
  rw [Nat.zero_add] at h
  intro s hs k hk hbit
  have hrow := List.all_eq_true.mp h s hs
  have hk' := List.all_eq_true.mp hrow k (List.mem_range.mpr hk)
  rw [Bool.or_eq_true] at hk'
  rcases hk' with hb | hd
  · rw [hbit] at hb
    simp at hb
  · exact hd

lemma rowCoverage_spec {cc : Nat} (hcc : cc < 256) :
    ∀ k, k < 12 → cornerBitsDiffer cc k = true →
      firstMatch (dualPointsList.getD cc [0, 0, 0, 0]) (2 ^ k) ≠ 0 := by
  have h := checkRows_prop rowCoverageOK dualPointsList 0 tableCoverageOK cc
    (by rw [dualPointsList_length]; exact hcc)
  rw [Nat.zero_add] at h
  intro k hk hd
  have hk' := List.all_eq_true.mp h k (List.mem_range.mpr hk)
  rw [Bool.or_eq_true] at hk'
  rcases hk' with hb | hm
  · rw [hd] at hb
    simp at hb
  · exact of_decide_eq_true hm

lemma edgeCornerA_lt {k : Nat} (hk : k < 12) : edgeCornerA k < 8 := by
  interval_cases k <;> decide

lemma edgeCornerB_lt {k : Nat} (hk : k < 12) : edgeCornerB k < 8 := by
  interval_cases k <;> decide

lemma straddles_iff_differ (v : Volume) (iso : Nat) (x y z : Int) (k : Nat)
    (hk : k < 12) :
    straddles v iso x y z k ↔
      cornerBitsDiffer (getCellCode v x y z iso) k = true := by
  unfold cornerBitsDiffer
  rw [getCellCode_testBit v x y z iso _ (edgeCornerA_lt hk),
    getCellCode_testBit v x y z iso _ (edgeCornerB_lt hk)]
  unfold straddles
  by_cases ha : iso ≤ sampleCorner v x y z (edgeCornerA k) <;>
    by_cases hb : iso ≤ sampleCorner v x y z (edgeCornerB k) <;>
      simp [ha, hb] <;> omega

lemma cornerBitsDiffer_flip (cc : Nat) (k : Nat) (hk : k < 12) :
    cornerBitsDiffer (cc ^^^ 255) k = cornerBitsDiffer cc k := by
  unfold cornerBitsDiffer
  rw [xor255_testBit cc _ (edgeCornerA_lt hk), xor255_testBit cc _ (edgeCornerB_lt hk)]
  cases cc.testBit (edgeCornerA k) <;> cases cc.testBit (edgeCornerB k) <;> rfl

lemma getDualPointCode_eq_firstMatch (v : Volume) (gm : Bool) (x y z : Int)
    (iso e : Nat) :
    getDualPointCode v gm x y z iso e =
      firstMatch (dualPointsList.getD (manifoldCellCode v gm x y z iso) [0, 0, 0, 0]) e :=
  rfl

lemma edgeContributions_length (v : Volume) (x y z : Int) (iso p : Nat) :
    (edgeContributions v x y z iso p).length = countEdges p := by
  simp [edgeContributions, countEdges, List.length_append, apply_ite List.length]
  omega

lemma countEdges_ne_zero {p j : Nat} (hj : j < 12) (h : p &&& 2 ^ j ≠ 0) :
    countEdges p ≠ 0 := by
  interval_cases j
  · have h' : p &&& EDGE0 ≠ 0 := by rw [show EDGE0 = 2 ^ 0 from rfl]; exact h
    unfold countEdges; rw [if_pos h']; omega
  · have h' : p &&& EDGE1 ≠ 0 := by rw [show EDGE1 = 2 ^ 1 from rfl]; exact h
    unfold countEdges; rw [if_pos h']; omega
  · have h' : p &&& EDGE2 ≠ 0 := by rw [show EDGE2 = 2 ^ 2 from rfl]; exact h
    unfold countEdges; rw [if_pos h']; omega
  · have h' : p &&& EDGE3 ≠ 0 := by rw [show EDGE3 = 2 ^ 3 from rfl]; exact h
    unfold countEdges; rw [if_pos h']; omega
  · have h' : p &&& EDGE4 ≠ 0 := by rw [show EDGE4 = 2 ^ 4 from rfl]; exact h
    unfold countEdges; rw [if_pos h']; omega
  · have h' : p &&& EDGE5 ≠ 0 := by rw [show EDGE5 = 2 ^ 5 from rfl]; exact h
    unfold countEdges; rw [if_pos h']; omega
  · have h' : p &&& EDGE6 ≠ 0 := by rw [show EDGE6 = 2 ^ 6 from rfl]; exact h
    unfold countEdges; rw [if_pos h']; omega
  · have h' : p &&& EDGE7 ≠ 0 := by rw [show EDGE7 = 2 ^ 7 from rfl]; exact h
    unfold countEdges; rw [if_pos h']; omega
  · have h' : p &&& EDGE8 ≠ 0 := by rw [show EDGE8 = 2 ^ 8 from rfl]; exact h
    unfold countEdges; rw [if_pos h']; omega
  · have h' : p &&& EDGE9 ≠ 0 := by rw [show EDGE9 = 2 ^ 9 from rfl]; exact h
    unfold countEdges; rw [if_pos h']; omega
  · have h' : p &&& EDGE10 ≠ 0 := by rw [show EDGE10 = 2 ^ 10 from rfl]; exact h
    unfold countEdges; rw [if_pos h']; omega
  · have h' : p &&& EDGE11 ≠ 0 := by rw [show EDGE11 = 2 ^ 11 from rfl]; exact h
    unfold countEdges; rw [if_pos h']; omega

lemma cornerBitsDiffer_manifold (v : Volume) (gm : Bool) (x y z : Int)
    (iso : Nat) (k : Nat) (hk : k < 12) :
    cornerBitsDiffer (manifoldCellCode v gm x y z iso) k =
      cornerBitsDiffer (getCellCode v x y z iso) k := by
  rcases manifoldCellCode_cases v gm x y z iso with h | h <;> rw [h]
  rw [cornerBitsDiffer_flip _ _ hk]

/-- Claim C4: for every dual point code the resolver produces for a grid
edge whose endpoint samples straddle the iso value, the code is non-zero
(so the `points` counter — the length of the contribution list that
`_calculateDualPoint` divides by — is non-zero), and every edge bit set in
it joins two corner samples on opposite sides of iso, so those samples
differ and the interpolation denominator `b - a` is non-zero.  No division
by zero occurs in the dual point geometry. -/
theorem dual_point_interpolation_safe :
    ∀ (v : Volume) (gm : Bool) (iso : Nat) (x y z : Int) (k : Nat),
      k < 12 → straddles v iso x y z k →
      getDualPointCode v gm x y z iso (2 ^ k) ≠ 0 ∧
      (edgeContributions v x y z iso (getDualPointCode v gm x y z iso (2 ^ k))).length ≠ 0 ∧
      (∀ j, j < 12 → getDualPointCode v gm x y z iso (2 ^ k) &&& 2 ^ j ≠ 0 →
        straddles v iso x y z j ∧
        sampleCorner v x y z (edgeCornerA j) ≠ sampleCorner v x y z (edgeCornerB j) ∧
        ((sampleCorner v x y z (edgeCornerB j) : Rat) -
          (sampleCorner v x y z (edgeCornerA j) : Rat)) ≠ 0) := by
  intro v gm iso x y z k hk hs
  have hmc : manifoldCellCode v gm x y z iso < 256 := manifoldCellCode_lt v gm x y z iso
  have hdk : cornerBitsDiffer (getCellCode v x y z iso) k = true :=
    (straddles_iff_differ v iso x y z k hk).mp hs
  have hdkm : cornerBitsDiffer (manifoldCellCode v gm x y z iso) k = true := by
    rw [cornerBitsDiffer_manifold v gm x y z iso k hk]
    exact hdk
  have hp0 : getDualPointCode v gm x y z iso (2 ^ k) ≠ 0 := by
    rw [getDualPointCode_eq_firstMatch]
    exact rowCoverage_spec hmc k hk hdkm
  refine ⟨hp0, ?_, ?_⟩
  · have hpk : getDualPointCode v gm x y z iso (2 ^ k) &&& 2 ^ k ≠ 0 := by
      rcases firstMatch_zero_or_meets
          (dualPointsList.getD (manifoldCellCode v gm x y z iso) [0, 0, 0, 0]) (2 ^ k) with
        h0 | hm
      · rw [getDualPointCode_eq_firstMatch] at hp0
        exact absurd h0 hp0
      · rw [getDualPointCode_eq_firstMatch]
        exact hm
    rw [edgeContributions_length]
    exact countEdges_ne_zero hk hpk
  · intro j hj hbit
    have hmem : getDualPointCode v gm x y z iso (2 ^ k) ∈
        dualPointsList.getD (manifoldCellCode v gm x y z iso) [0, 0, 0, 0] := by
      rw [getDualPointCode_eq_firstMatch]
      rw [getDualPointCode_eq_firstMatch] at hp0
      exact firstMatch_mem hp0
    have hbitj : (getDualPointCode v gm x y z iso (2 ^ k)).testBit j = true :=
      (and_two_pow_ne_zero _ j).mp hbit
    have hdj : cornerBitsDiffer (manifoldCellCode v gm x y z iso) j = true :=
      rowOpposite_spec hmc _ hmem j hj hbitj
    have hdjc : cornerBitsDiffer (getCellCode v x y z iso) j = true := by
      rw [cornerBitsDiffer_manifold v gm x y z iso j hj] at hdj
      exact hdj
    have hsj : straddles v iso x y z j := (straddles_iff_differ v iso x y z j hj).mpr hdjc
    have hne : sampleCorner v x y z (edgeCornerA j) ≠ sampleCorner v x y z (edgeCornerB j) := by
      rcases hsj with ⟨h1, h2⟩ | ⟨h1, h2⟩ <;> omega
    refine ⟨hsj, hne, sub_ne_zero_of_ne ?_⟩
    exact_mod_cast hne.symm

/-- Witness for C4: the X edge of the cell at the origin of `volMin`
straddles iso = 128 (samples 0 and 255), so the theorem applies at
`k = 0`. -/
theorem dual_point_interpolation_safe_witness :
    straddles volMin 128 0 1 1 0 ∧
    (getDualPointCode volMin false 0 1 1 128 (2 ^ 0) ≠ 0 ∧
     (edgeContributions volMin 0 1 1 128
        (getDualPointCode volMin false 0 1 1 128 (2 ^ 0))).length ≠ 0 ∧
     (∀ j, j < 12 → getDualPointCode volMin false 0 1 1 128 (2 ^ 0) &&& 2 ^ j ≠ 0 →
       straddles volMin 128 0 1 1 j ∧
       sampleCorner volMin 0 1 1 (edgeCornerA j) ≠ sampleCorner volMin 0 1 1 (edgeCornerB j) ∧
       ((sampleCorner volMin 0 1 1 (edgeCornerB j) : Rat) -
         (sampleCorner volMin 0 1 1 (edgeCornerA j) : Rat)) ≠ 0)) := by
  constructor
  · show straddles volMin 128 0 1 1 0
    unfold straddles
    decide
  · exact dual_point_interpolation_safe volMin false 128 0 1 1 0 (by decide)
      (by unfold straddles; decide)

/-! Soup equivalence: simulation between the shared-vertices sweep and the
quad-soup sweep. -/

lemma index_inj (v : Volume) {x y z x' y' z' : Int}
    (h : inBox v x y z) (h' : inBox v x' y' z')
    (he : index v x y z = index v x' y' z') : x = x' ∧ y = y' ∧ z = z' := by
  obtain ⟨hx0, hx1, hy0, hy1, hz0, hz1⟩ := h
  obtain ⟨hx0', hx1', hy0', hy1', hz0', hz1'⟩ := h'
  unfold index at he
  have hx : x = x' := by
    have h1 := congrArg (· % v.dimX) he
    simpa [Int.add_mul_emod_self_left, Int.emod_eq_of_lt hx0 hx1,
      Int.emod_eq_of_lt hx0' hx1'] using h1
  subst hx
  have h3 : y + v.dimY * z = y' + v.dimY * z' := by
    have h2 : v.dimX * (y + v.dimY * z) = v.dimX * (y' + v.dimY * z') := by omega
    exact mul_left_cancel₀ (by omega : v.dimX ≠ 0) h2
  have hy : y = y' := by
    have h4 := congrArg (· % v.dimY) h3
    simpa [Int.add_mul_emod_self_left, Int.emod_eq_of_lt hy0 hy1,
      Int.emod_eq_of_lt hy0' hy1'] using h4
  subst hy
  have hz : z = z' := by
    have h5 : v.dimY * z = v.dimY * z' := by omega
    exact mul_left_cancel₀ (by omega : v.dimY ≠ 0) h5
  exact ⟨rfl, rfl, hz⟩

lemma mem_intRange {n a : Int} (h : a ∈ intRange n) : 0 ≤ a ∧ a < n := by
  simp only [intRange, List.mem_map, List.mem_range] at h
  obtain ⟨k, hk, rfl⟩ := h
  constructor
  · exact Int.ofNat_nonneg k
  · rw [Int.ofNat_eq_natCast]
    omega

lemma mem_cellPositions {v : Volume} {p : Int × Int × Int} (hp : p ∈ cellPositions v) :
    0 ≤ p.1 ∧ p.1 < v.dimX - 2 ∧ 0 ≤ p.2.1 ∧ p.2.1 < v.dimY - 2 ∧
    0 ≤ p.2.2 ∧ p.2.2 < v.dimZ - 2 := by
  unfold cellPositions at hp
  rw [List.mem_flatMap] at hp
  obtain ⟨z, hz, hp⟩ := hp
  rw [List.mem_flatMap] at hp
  obtain ⟨y, hy, hp⟩ := hp
  rw [List.mem_map] at hp
  obtain ⟨x, hx, rfl⟩ := hp
  obtain ⟨hz0, hz1⟩ := mem_intRange hz
  obtain ⟨hy0, hy1⟩ := mem_intRange hy
  obtain ⟨hx0, hx1⟩ := mem_intRange hx
  exact ⟨hx0, hx1, hy0, hy1, hz0, hz1⟩

lemma derefQuads_append (verts : List Vertex) (q1 q2 : List Quad) :
    derefQuads verts (q1 ++ q2) = derefQuads verts q1 ++ derefQuads verts q2 := by
  simp [derefQuads]

lemma derefQuads_length (verts : List Vertex) (quads : List Quad) :
    (derefQuads verts quads).length = 4 * quads.length := by
  induction quads with
  | nil => rfl
  | cons q rest ih =>
    unfold derefQuads at ih ⊢
    rw [List.flatMap_cons, List.length_append, ih]
    simp
    omega

lemma QuadsOK_extend {verts tail : List Vertex} {quads : List Quad}
    (h : QuadsOK verts quads) : QuadsOK (verts ++ tail) quads := by
  intro q hq
  obtain ⟨h0, h1, h2, h3⟩ := h q hq
  refine ⟨?_, ?_, ?_, ?_⟩ <;> simp [List.length_append] <;> omega

lemma derefQuads_extend {verts tail : List Vertex} {quads : List Quad}
    (h : QuadsOK verts quads) :
    derefQuads (verts ++ tail) quads = derefQuads verts quads := by
  induction quads with
  | nil => rfl
  | cons q rest ih =>
    obtain ⟨h0, h1, h2, h3⟩ := h q (List.mem_cons_self q rest)
    have hrest : QuadsOK verts rest := fun q' hq' => h q' (List.mem_cons_of_mem q hq')
    simp only [derefQuads, List.flatMap_cons] at ih ⊢
    rw [List.getD_append _ _ _ _ h0, List.getD_append _ _ _ _ h1,
      List.getD_append _ _ _ _ h2, List.getD_append _ _ _ _ h3, ih hrest]

lemma StateInv_init (v : Volume) (iso : Nat) :
    StateInv v iso ⟨[], [], []⟩ [] := by
  refine ⟨?_, ?_, rfl⟩
  · intro key i h
    simp [lookupCache] at h
  · intro q hq
    simp at hq

lemma getShared_spec (v : Volume) (gm : Bool) (iso : Nat) {x y z : Int} (e : Nat)
    (hbox : inBox v x y z) {verts : List Vertex} {cache : Cache}
    (hc : CacheOK v iso verts cache) :
    (∃ tail, (getSharedDualPointIndex v gm iso x y z e verts cache).2.1 = verts ++ tail) ∧
    (getSharedDualPointIndex v gm iso x y z e verts cache).1 <
      (getSharedDualPointIndex v gm iso x y z e verts cache).2.1.length ∧
    (getSharedDualPointIndex v gm iso x y z e verts cache).2.1.getD
        (getSharedDualPointIndex v gm iso x y z e verts cache).1 ⟨0, 0, 0⟩ =
      calculateDualPoint v x y z iso (getDualPointCode v gm x y z iso e) ∧
    CacheOK v iso (getSharedDualPointIndex v gm iso x y z e verts cache).2.1
      (getSharedDualPointIndex v gm iso x y z e verts cache).2.2 := by
  unfold getSharedDualPointIndex
  cases hl : lookupCache cache ⟨index v x y z, getDualPointCode v gm x y z iso e⟩ with
  | some i =>
    simp only [hl]
    obtain ⟨x', y', z', hbox', hid, hlen, hval⟩ := hc _ i hl
    obtain ⟨hx, hy, hz⟩ := index_inj v hbox' hbox hid.symm
    subst hx; subst hy; subst hz
    exact ⟨⟨[], by simp⟩, hlen, hval, hc⟩
  | none =>
    simp only [hl]
    refine ⟨⟨_, rfl⟩, by simp, ?_, ?_⟩
    · rw [List.getD_append_right _ _ _ _ (le_refl verts.length)]
      simp
    · intro key' i' hl'
      unfold lookupCache at hl'
      by_cases hk : (⟨index v x y z, getDualPointCode v gm x y z iso e⟩ : DualPointKey) = key'
      · rw [if_pos hk] at hl'
        obtain rfl : verts.length = i' := by simpa using hl'
        refine ⟨x, y, z, hbox, ?_, by simp, ?_⟩
        · rw [← hk]
        · rw [List.getD_append_right _ _ _ _ (le_refl verts.length), ← hk]
          simp
      · rw [if_neg hk] at hl'
        obtain ⟨x', y', z', hbox', hid, hlen, hval⟩ := hc key' i' hl'
        refine ⟨x', y', z', hbox', hid, ?_, ?_⟩
        · simp only [List.length_append]
          omega
        · rw [List.getD_append _ _ _ _ hlen]
          exact hval

lemma emit_sim (v : Volume) (gm : Bool) (iso : Nat)
    {x0 y0 z0 x1 y1 z1 x2 y2 z2 x3 y3 z3 : Int} {e0 e1 e2 e3 : Nat}
    (h0 : inBox v x0 y0 z0) (h1 : inBox v x1 y1 z1)
    (h2 : inBox v x2 y2 z2) (h3 : inBox v x3 y3 z3) (fw : Bool)
    {st : SState} {sv : List Vertex} (hinv : StateInv v iso st sv) :
    StateInv v iso
      (sharedEmitQuad v gm iso x0 y0 z0 x1 y1 z1 x2 y2 z2 x3 y3 z3 e0 e1 e2 e3 fw st)
      (soupEmitQuad v gm iso x0 y0 z0 x1 y1 z1 x2 y2 z2 x3 y3 z3 e0 e1 e2 e3 fw sv) := by
  obtain ⟨hcache, hquads, hderef⟩ := hinv
  obtain ⟨⟨t0, ht0⟩, hlt0, hval0, hc0⟩ := getShared_spec v gm iso e0 h0 hcache
  set r0 := getSharedDualPointIndex v gm iso x0 y0 z0 e0 st.verts st.cache with hr0
  obtain ⟨⟨t1, ht1⟩, hlt1, hval1, hc1⟩ := getShared_spec v gm iso e1 h1 hc0
  set r1 := getSharedDualPointIndex v gm iso x1 y1 z1 e1 r0.2.1 r0.2.2 with hr1
  obtain ⟨⟨t2, ht2⟩, hlt2, hval2, hc2⟩ := getShared_spec v gm iso e2 h2 hc1
  set r2 := getSharedDualPointIndex v gm iso x2 y2 z2 e2 r1.2.1 r1.2.2 with hr2
  obtain ⟨⟨t3, ht3⟩, hlt3, hval3, hc3⟩ := getShared_spec v gm iso e3 h3 hc2
  set r3 := getSharedDualPointIndex v gm iso x3 y3 z3 e3 r2.2.1 r2.2.2 with hr3
  have hshared : sharedEmitQuad v gm iso x0 y0 z0 x1 y1 z1 x2 y2 z2 x3 y3 z3
      e0 e1 e2 e3 fw st =
      ⟨r3.2.1, st.quads ++
        [if fw then ⟨r0.1, r1.1, r2.1, r3.1⟩ else ⟨r0.1, r3.1, r2.1, r1.1⟩], r3.2.2⟩ := rfl
  have hsoup : soupEmitQuad v gm iso x0 y0 z0 x1 y1 z1 x2 y2 z2 x3 y3 z3
      e0 e1 e2 e3 fw sv =
      sv ++ (if fw then
        [calculateDualPoint v x0 y0 z0 iso (getDualPointCode v gm x0 y0 z0 iso e0),
         calculateDualPoint v x1 y1 z1 iso (getDualPointCode v gm x1 y1 z1 iso e1),
         calculateDualPoint v x2 y2 z2 iso (getDualPointCode v gm x2 y2 z2 iso e2),
         calculateDualPoint v x3 y3 z3 iso (getDualPointCode v gm x3 y3 z3 iso e3)]
      else
        [calculateDualPoint v x0 y0 z0 iso (getDualPointCode v gm x0 y0 z0 iso e0),
         calculateDualPoint v x3 y3 z3 iso (getDualPointCode v gm x3 y3 z3 iso e3),
         calculateDualPoint v x2 y2 z2 iso (getDualPointCode v gm x2 y2 z2 iso e2),
         calculateDualPoint v x1 y1 z1 iso (getDualPointCode v gm x1 y1 z1 iso e1)]) := rfl
  have hb01 : r0.1 < r1.2.1.length := by
    rw [ht1, List.length_append]; omega
  have hb02 : r0.1 < r2.2.1.length := by
    rw [ht2, List.length_append]; omega
  have hb03 : r0.1 < r3.2.1.length := by
    rw [ht3, List.length_append]; omega
  have hb12 : r1.1 < r2.2.1.length := by
    rw [ht2, List.length_append]; omega
  have hb13 : r1.1 < r3.2.1.length := by
    rw [ht3, List.length_append]; omega
  have hb23 : r2.1 < r3.2.1.length := by
    rw [ht3, List.length_append]; omega
  have hs0 : r3.2.1.getD r0.1 ⟨0, 0, 0⟩ =
      calculateDualPoint v x0 y0 z0 iso (getDualPointCode v gm x0 y0 z0 iso e0) := by
    rw [ht3, List.getD_append _ _ _ _ hb02, ht2, List.getD_append _ _ _ _ hb01,
      ht1, List.getD_append _ _ _ _ hlt0, hval0]
  have hs1 : r3.2.1.getD r1.1 ⟨0, 0, 0⟩ =
      calculateDualPoint v x1 y1 z1 iso (getDualPointCode v gm x1 y1 z1 iso e1) := by
    rw [ht3, List.getD_append _ _ _ _ hb12, ht2, List.getD_append _ _ _ _ hlt1, hval1]
  have hs2 : r3.2.1.getD r2.1 ⟨0, 0, 0⟩ =
      calculateDualPoint v x2 y2 z2 iso (getDualPointCode v gm x2 y2 z2 iso e2) := by
    rw [ht3, List.getD_append _ _ _ _ hlt2, hval2]
  have hs3 : r3.2.1.getD r3.1 ⟨0, 0, 0⟩ =
      calculateDualPoint v x3 y3 z3 iso (getDualPointCode v gm x3 y3 z3 iso e3) := hval3
  have hlen03 : st.verts.length ≤ r3.2.1.length := by
    rw [ht3, ht2, ht1, ht0]
    simp only [List.length_append]
    omega
  have hextQ : derefQuads r3.2.1 st.quads = derefQuads st.verts st.quads := by
    rw [ht3, ht2, ht1, ht0, List.append_assoc, List.append_assoc, List.append_assoc]
    exact derefQuads_extend hquads
  rw [hshared, hsoup]
  refine ⟨hc3, ?_, ?_⟩
  · show QuadsOK r3.2.1 (st.quads ++ _)
    intro q hq
    rcases List.mem_append.mp hq with hmem | hnew
    · obtain ⟨b0, b1, b2, b3⟩ := hquads q hmem
      exact ⟨by omega, by omega, by omega, by omega⟩
    · cases fw <;> simp only [if_true, if_false, Bool.false_eq_true, ite_false,
        ite_true, List.mem_singleton] at hnew <;> subst hnew
      · exact ⟨hb03, hlt3, hb23, hb13⟩
      · exact ⟨hb03, hb13, hb23, hlt3⟩
  · show sv ++ _ = derefQuads r3.2.1 (st.quads ++ _)
    rw [derefQuads_append, hextQ, ← hderef]
    congr 1
    cases fw <;> simp only [Bool.false_eq_true, ite_false, ite_true, derefQuads,
      List.flatMap_cons, List.flatMap_nil, List.append_nil]
    · rw [hs0, hs1, hs2, hs3]
    · rw [hs0, hs1, hs2, hs3]

lemma xblock_sim (v : Volume) (gm : Bool) (iso : Nat) {x y z : Int}
    (hx0 : 0 ≤ x) (hx1 : x < v.dimX - 2) (_hy0 : 0 ≤ y) (hy1 : y < v.dimY - 2)
    (_hz0 : 0 ≤ z) (hz1 : z < v.dimZ - 2)
    {st : SState} {sv : List Vertex} (hinv : StateInv v iso st sv) :
    StateInv v iso
      (if z > 0 ∧ y > 0 then
        let entering := decide (sample v x y z < iso ∧ iso ≤ sample v (x + 1) y z)
        let exiting := decide (iso ≤ sample v x y z ∧ sample v (x + 1) y z < iso)
        if entering || exiting then
          sharedEmitQuad v gm iso x y z x y (z - 1) x (y - 1) (z - 1) x (y - 1) z
            EDGE0 EDGE2 EDGE6 EDGE4 entering st
        else st
      else st)
      (if z > 0 ∧ y > 0 then
        let entering := decide (sample v x y z < iso ∧ iso ≤ sample v (x + 1) y z)
        let exiting := decide (iso ≤ sample v x y z ∧ sample v (x + 1) y z < iso)
        if entering || exiting then
          soupEmitQuad v gm iso x y z x y (z - 1) x (y - 1) (z - 1) x (y - 1) z
            EDGE0 EDGE2 EDGE6 EDGE4 entering sv
        else sv
      else sv) := by
  by_cases hg : z > 0 ∧ y > 0
  · rw [if_pos hg, if_pos hg]
    dsimp only
    by_cases hc : (decide (sample v x y z < iso ∧ iso ≤ sample v (x + 1) y z) ||
        decide (iso ≤ sample v x y z ∧ sample v (x + 1) y z < iso)) = true
    · rw [if_pos hc, if_pos hc]
      refine emit_sim v gm iso ?_ ?_ ?_ ?_ _ hinv <;> unfold inBox <;> omega
    · rw [if_neg hc, if_neg hc]
      exact hinv
  · rw [if_neg hg, if_neg hg]
    exact hinv

lemma yblock_sim (v : Volume) (gm : Bool) (iso : Nat) {x y z : Int}
    (_hx0 : 0 ≤ x) (hx1 : x < v.dimX - 2) (hy0 : 0 ≤ y) (hy1 : y < v.dimY - 2)
    (_hz0 : 0 ≤ z) (hz1 : z < v.dimZ - 2)
    {st : SState} {sv : List Vertex} (hinv : StateInv v iso st sv) :
    StateInv v iso
      (if z > 0 ∧ x > 0 then
        let entering := decide (sample v x y z < iso ∧ iso ≤ sample v x (y + 1) z)
        let exiting := decide (iso ≤ sample v x y z ∧ sample v x (y + 1) z < iso)
        if entering || exiting then
          sharedEmitQuad v gm iso x y z x y (z - 1) (x - 1) y (z - 1) (x - 1) y z
            EDGE8 EDGE11 EDGE10 EDGE9 exiting st
        else st
      else st)
      (if z > 0 ∧ x > 0 then
        let entering := decide (sample v x y z < iso ∧ iso ≤ sample v x (y + 1) z)
        let exiting := decide (iso ≤ sample v x y z ∧ sample v x (y + 1) z < iso)
        if entering || exiting then
          soupEmitQuad v gm iso x y z x y (z - 1) (x - 1) y (z - 1) (x - 1) y z
            EDGE8 EDGE11 EDGE10 EDGE9 exiting sv
        else sv
      else sv) := by
  by_cases hg : z > 0 ∧ x > 0
  · rw [if_pos hg, if_pos hg]
    dsimp only
    by_cases hc : (decide (sample v x y z < iso ∧ iso ≤ sample v x (y + 1) z) ||
        decide (iso ≤ sample v x y z ∧ sample v x (y + 1) z < iso)) = true
    · rw [if_pos hc, if_pos hc]
      refine emit_sim v gm iso ?_ ?_ ?_ ?_ _ hinv <;> unfold inBox <;> omega
    · rw [if_neg hc, if_neg hc]
      exact hinv
  · rw [if_neg hg, if_neg hg]
    exact hinv

lemma zblock_sim (v : Volume) (gm : Bool) (iso : Nat) {x y z : Int}
    (_hx0 : 0 ≤ x) (hx1 : x < v.dimX - 2) (_hy0 : 0 ≤ y) (hy1 : y < v.dimY - 2)
    (hz0 : 0 ≤ z) (hz1 : z < v.dimZ - 2)
    {st : SState} {sv : List Vertex} (hinv : StateInv v iso st sv) :
    StateInv v iso
      (if x > 0 ∧ y > 0 then
        let entering := decide (sample v x y z < iso ∧ iso ≤ sample v x y (z + 1))
        let exiting := decide (iso ≤ sample v x y z ∧ sample v x y (z + 1) < iso)
        if entering || exiting then
          sharedEmitQuad v gm iso x y z (x - 1) y z (x - 1) (y - 1) z x (y - 1) z
            EDGE3 EDGE1 EDGE5 EDGE7 exiting st
        else st
      else st)
      (if x > 0 ∧ y > 0 then
        let entering := decide (sample v x y z < iso ∧ iso ≤ sample v x y (z + 1))
        let exiting := decide (iso ≤ sample v x y z ∧ sample v x y (z + 1) < iso)
        if entering || exiting then
          soupEmitQuad v gm iso x y z (x - 1) y z (x - 1) (y - 1) z x (y - 1) z
            EDGE3 EDGE1 EDGE5 EDGE7 exiting sv
        else sv
      else sv) := by
  by_cases hg : x > 0 ∧ y > 0
  · rw [if_pos hg, if_pos hg]
    dsimp only
    by_cases hc : (decide (sample v x y z < iso ∧ iso ≤ sample v x y (z + 1)) ||
        decide (iso ≤ sample v x y z ∧ sample v x y (z + 1) < iso)) = true
    · rw [if_pos hc, if_pos hc]
      refine emit_sim v gm iso ?_ ?_ ?_ ?_ _ hinv <;> unfold inBox <;> omega
    · rw [if_neg hc, if_neg hc]
      exact hinv
  · rw [if_neg hg, if_neg hg]
    exact hinv

lemma cell_sim (v : Volume) (gm : Bool) (iso : Nat) {p : Int × Int × Int}
    (hp : p ∈ cellPositions v) {st : SState} {sv : List Vertex}
    (hinv : StateInv v iso st sv) :
    StateInv v iso (sharedCell v gm iso st p) (soupCell v gm iso sv p) := by
  obtain ⟨hx0, hx1, hy0, hy1, hz0, hz1⟩ := mem_cellPositions hp
  obtain ⟨x, y, z⟩ := p
  simp only [sharedCell, soupCell]
  exact zblock_sim v gm iso hx0 hx1 hy0 hy1 hz0 hz1
    (yblock_sim v gm iso hx0 hx1 hy0 hy1 hz0 hz1
      (xblock_sim v gm iso hx0 hx1 hy0 hy1 hz0 hz1 hinv))

lemma fold_sim (v : Volume) (gm : Bool) (iso : Nat) :
    ∀ (l : List (Int × Int × Int)), (∀ p ∈ l, p ∈ cellPositions v) →
      ∀ (st : SState) (sv : List Vertex), StateInv v iso st sv →
      StateInv v iso (l.foldl (sharedCell v gm iso) st)
        (l.foldl (soupCell v gm iso) sv) := by
  intro l
  induction l with
  | nil => intro _ st sv h; exact h
  | cons p rest ih =>
    intro hmem st sv h
    rw [List.foldl_cons, List.foldl_cons]
    exact ih (fun q hq => hmem q (List.mem_cons_of_mem p hq)) _ _
      (cell_sim v gm iso (hmem p (List.mem_cons_self p rest)) h)

/-- Claim C6: for every input, soup mode produces exactly `4·Q` vertices
where `Q` is the shared-mode quad count; the soup vertex list is exactly
the shared quads dereferenced in order (so the k-th soup quad's four
vertex positions equal, pointwise, the positions referenced by the k-th
shared quad), and the soup quads are `(4k, 4k+1, 4k+2, 4k+3)`. -/
theorem soup_shared_equivalence :
    ∀ (v : Volume) (iso : Nat) (gm : Bool),
      (build v iso gm true [] [] []).verts.length =
        4 * (build v iso gm false [] [] []).quads.length ∧
      (build v iso gm true [] [] []).verts =
        derefQuads (build v iso gm false [] [] []).verts
          (build v iso gm false [] [] []).quads ∧
      (build v iso gm true [] [] []).quads =
        (List.range ((build v iso gm false [] [] []).quads.length)).map
          (fun i => ⟨i * 4, i * 4 + 1, i * 4 + 2, i * 4 + 3⟩) := by
  intro v iso gm
  obtain ⟨hc, hq, hd⟩ := fold_sim v gm iso (cellPositions v) (fun p hp => hp)
    ⟨[], [], []⟩ [] (StateInv_init v iso)
  have hshared : build v iso gm false [] [] [] =
      (cellPositions v).foldl (sharedCell v gm iso) ⟨[], [], []⟩ := rfl
  have hsoupverts : (build v iso gm true [] [] []).verts =
      (cellPositions v).foldl (soupCell v gm iso) [] := rfl
  have hsoupquads : (build v iso gm true [] [] []).quads =
      (List.range (((cellPositions v).foldl (soupCell v gm iso) []).length / 4)).map
        (fun i => ⟨i * 4, i * 4 + 1, i * 4 + 2, i * 4 + 3⟩) := rfl
  have hlen : ((cellPositions v).foldl (soupCell v gm iso) []).length =
      4 * ((cellPositions v).foldl (sharedCell v gm iso) ⟨[], [], []⟩).quads.length := by
    rw [hd]
    exact derefQuads_length _ _
  refine ⟨?_, ?_, ?_⟩
  · rw [hsoupverts, hshared, hlen]
  · rw [hsoupverts, hshared, hd]
  · rw [hsoupquads, hshared, hlen, Nat.mul_div_cancel_left _ (by norm_num : 0 < 4)]

end DualMC
